import Mathlib

/-!
Verification development for the azure-devops-mcp-server repository.

The embedding models the tool dispatch and formatting layer of
`server/src/index.ts` and the backend client of
`server/src/azure-devops-client.ts` as executable Lean functions over a
JavaScript-value datatype `Json`.  JavaScript semantics that the source
relies on (truthiness, property access on `undefined`/`null` throwing a
TypeError, optional chaining, `||` defaulting, `Object.entries`,
template-literal stringification) are modelled by small helper functions,
and each dispatcher case / formatter branch / client method is translated
branch by branch from the source.
-/

namespace AzdoMcp

/-- JavaScript values as they appear in the request/response payloads. -/
inductive Json where
  | undefined
  | null
  | bool (b : Bool)
  | num (n : Int)
  | str (s : String)
  | arr (elems : List Json)
  | obj (pairs : List (String × Json))

/-- JavaScript truthiness. -/
def Json.truthy : Json → Bool
  | .undefined => false
  | .null => false
  | .bool b => b
  | .num n => n != 0
  | .str s => s != ""
  | .arr _ => true
  | .obj _ => true

/-- Is the value `null` or `undefined` (the values whose members cannot be
accessed)? -/
def Json.isNullish : Json → Bool
  | .undefined => true
  | .null => true
  | _ => false

/-- Plain property access `v.k` / `v[k]`: throws a TypeError when the
receiver is `null`/`undefined`, yields `undefined` for a missing key or a
non-object receiver. -/
def Json.getp : Json → String → Except String Json
  | .undefined, _ => .error ("TypeError")
  | .null, _ => .error ("TypeError")
  | .obj pairs, k => .ok ((pairs.lookup k).getD .undefined)
  | _, _ => .ok .undefined

/-- Optional-chaining access `v?.k`: `undefined` when the receiver is
nullish, otherwise like plain access. -/
def Json.getOpt : Json → String → Json
  | .obj pairs, k => (pairs.lookup k).getD .undefined
  | _, _ => .undefined

/-- `v?.[i]` over the small index range used by the source. -/
def Json.idxOpt : Json → Nat → Json
  | .arr xs, i => xs.getD i .undefined
  | _, _ => .undefined

/-- JavaScript `a || b`. -/
def jor (a b : Json) : Json := if a.truthy then a else b

mutual
/-- Template-literal stringification of a value (the semantics of a
`${v}` interpolation). -/
def Json.tmpl : Json → String
  | .undefined => "undefined"
  | .null => "null"
  | .bool true => "true"
  | .bool false => "false"
  | .num n => toString n
  | .str s => s
  | .arr xs => String.intercalate (",") (Json.tmplList xs)
  | .obj _ => "[object Object]"

/-- `Array.prototype.toString` renders nullish elements as empty. -/
def Json.tmplList : List Json → List String
  | [] => []
  | x :: xs =>
    (if x.isNullish then "" else Json.tmpl x) :: Json.tmplList xs
end

/-- `v.length === 0` as used by the empty-result guards: a nullish
receiver throws, arrays and strings compare their length, and any other
receiver's `length` is `undefined`, which is not `=== 0`. -/
def Json.lenIsZero : Json → Except String Bool
  | .undefined => .error ("TypeError")
  | .null => .error ("TypeError")
  | .arr xs => .ok xs.isEmpty
  | .str s => .ok (s == "")
  | _ => .ok false

/-- The `length` of an array payload (only reached after the `.map` has
succeeded, hence only for arrays). -/
def Json.lenNat : Json → Nat
  | .arr xs => xs.length
  | _ => 0

/-- `payload.map(row)`: throws on a non-array receiver. -/
def Json.jsMapRows : Json → (Json → Except String String) → Except String (List String)
  | .arr xs, f => xs.mapM f
  | _, _ => .error ("TypeError")

/-- `refs.map(f)` producing values (used by the two-step query). -/
def Json.jsMap : Json → (Json → Except String Json) → Except String (List Json)
  | .arr xs, f => xs.mapM f
  | _, _ => .error ("TypeError")

/-- `v?.length || 0` style length (optional chaining first). -/
def Json.lenOpt : Json → Json
  | .arr xs => .num xs.length
  | .str s => .num s.length
  | _ => .undefined

/-- `v.substring(0, n)`: only defined on strings; everything else throws
(`undefined` has no method, numbers have no `substring`). -/
def jsSubstring (v : Json) (n : Nat) : Except String Json :=
  match v with
  | .str s => .ok (.str (s.take n))
  | _ => .error ("TypeError")

/-- `v?.substring(0, n)`: nullish short-circuits to `undefined`. -/
def jsSubstringOpt (v : Json) (n : Nat) : Except String Json :=
  match v with
  | .undefined => .ok .undefined
  | .null => .ok .undefined
  | .str s => .ok (.str (s.take n))
  | _ => .error ("TypeError")

/-- `Object.entries`: key/value pairs for objects, index/value pairs for
arrays and strings, empty for other primitives, TypeError on nullish. -/
def jsEntries (v : Json) : Except String (List (String × Json)) :=
  match v with
  | .obj pairs => .ok pairs
  | .arr xs => .ok (xs.enum.map (fun p => (toString p.1, p.2)))
  | .str s => .ok (s.toList.enum.map (fun p => (toString p.1, Json.str (String.singleton p.2))))
  | .num _ => .ok []
  | .bool _ => .ok []
  | .undefined => .error ("TypeError")
  | .null => .error ("TypeError")

/-- `typeof v === 'object' && v !== null` (the guard used by the chat
endpoint before `Object.entries`). -/
def jsIsObjectNotNull : Json → Bool
  | .obj _ => true
  | .arr _ => true
  | .null => false
  | _ => false

/-- Escape one character for a JSON string literal (simplified model of
the escaping JSON.stringify performs). -/
def jsonEscapeChar (c : Char) : String :=
  if c = '"' then "\\\""
  else if c = '\\' then "\\\\"
  else if c = '\n' then "\\n"
  else if c = '\r' then "\\r"
  else if c = '\t' then "\\t"
  else String.singleton c

def jsonEscape (s : String) : String :=
  String.join (s.toList.map jsonEscapeChar)

mutual
/-- Model of `JSON.stringify(v, null, 2)` at indentation `ind` (shared by
the HTTP and chat endpoints' fallback formatting). -/
def jsonStringify : Json → String → String
  | .undefined, _ => "undefined"
  | .null, _ => "null"
  | .bool true, _ => "true"
  | .bool false, _ => "false"
  | .num n, _ => toString n
  | .str s, _ => "\"" ++ jsonEscape s ++ "\""
  | .arr [], _ => "[]"
  | .arr (x :: xs), ind =>
    "[\n" ++ String.intercalate (",\n") (jsonStringifyList (x :: xs) (ind ++ "  "))
      ++ "\n" ++ ind ++ "]"
  | .obj [], _ => "\x7b\x7d"
  | .obj (p :: ps), ind =>
    "\x7b\n" ++ String.intercalate (",\n") (jsonStringifyPairs (p :: ps) (ind ++ "  "))
      ++ "\n" ++ ind ++ "\x7d"

def jsonStringifyList : List Json → String → List String
  | [], _ => []
  | x :: xs, ind =>
    (ind ++ (if x.isNullish then "null" else jsonStringify x ind)) :: jsonStringifyList xs ind

def jsonStringifyPairs : List (String × Json) → String → List String
  | [], _ => []
  | p :: ps, ind =>
    (ind ++ "\"" ++ jsonEscape p.1 ++ "\": " ++ jsonStringify p.2 ind) :: jsonStringifyPairs ps ind
end

/-! Table-row renderers, one per tool template.  Each is translated from
the arrow function inside the corresponding `.map(...)` call; plain
property access uses `getp` (throws on a nullish receiver), optional
chaining uses `getOpt`, and `x || d` uses `jor`. -/

def emptyStr : Json := .str ""

/-- Rows of `list_projects` (identical in all three call sites). -/
def projectsRow (p : Json) : Except String String := do
  let i ← p.getp ("id")
  let n ← p.getp ("name")
  let d ← p.getp ("description")
  let u ← p.getp ("url")
  pure ("| " ++ i.tmpl ++ " | " ++ n.tmpl ++ " | " ++ (jor d emptyStr).tmpl ++ " | " ++ u.tmpl ++ " |")

/-- Rows of the work-item tables (`query_work_items`,
`get_work_items_by_ids`, `list_work_item_query_results`); `wi.fields` is
accessed without a guard in every call site. -/
def workItemRow (wi : Json) : Except String String := do
  let fields ← wi.getp ("fields")
  let i ← wi.getp ("id")
  let t ← fields.getp ("System.Title")
  let s ← fields.getp ("System.State")
  let a ← fields.getp ("System.AssignedTo")
  let w ← fields.getp ("System.WorkItemType")
  pure ("| " ++ i.tmpl ++ " | " ++ (jor t emptyStr).tmpl ++ " | " ++ (jor s emptyStr).tmpl
    ++ " | " ++ (jor (a.getOpt ("displayName")) emptyStr).tmpl ++ " | " ++ (jor w emptyStr).tmpl ++ " |")

def buildsRow (b : Json) : Except String String := do
  let i ← b.getp ("id")
  let n ← b.getp ("buildNumber")
  let s ← b.getp ("status")
  let r ← b.getp ("result")
  let q ← b.getp ("queueTime")
  let br ← b.getp ("sourceBranch")
  pure ("| " ++ i.tmpl ++ " | " ++ n.tmpl ++ " | " ++ s.tmpl ++ " | " ++ r.tmpl ++ " | "
    ++ q.tmpl ++ " | " ++ br.tmpl ++ " |")

def releasesRow (r : Json) : Except String String := do
  let i ← r.getp ("id")
  let n ← r.getp ("name")
  let s ← r.getp ("status")
  let c ← r.getp ("createdOn")
  let m ← r.getp ("modifiedOn")
  pure ("| " ++ i.tmpl ++ " | " ++ n.tmpl ++ " | " ++ s.tmpl ++ " | " ++ c.tmpl ++ " | " ++ m.tmpl ++ " |")

def reposRow (r : Json) : Except String String := do
  let i ← r.getp ("id")
  let n ← r.getp ("name")
  let d ← r.getp ("isDisabled")
  let f ← r.getp ("isFork")
  let w ← r.getp ("webUrl")
  pure ("| " ++ i.tmpl ++ " | " ++ n.tmpl ++ " | " ++ (if d.truthy then "Disabled" else "Active")
    ++ " | " ++ (if f.truthy then "Fork" else "No") ++ " | " ++ w.tmpl ++ " |")

/-- MCP handler branch row: `b.objectId.substring(0, 8)` without a guard. -/
def branchesRowMcp (b : Json) : Except String String := do
  let n ← b.getp ("name")
  let o ← b.getp ("objectId")
  let oc ← jsSubstring o 8
  let cr ← b.getp ("creator")
  pure ("| " ++ n.tmpl ++ " | " ++ oc.tmpl ++ " | " ++ (jor (cr.getOpt ("displayName")) emptyStr).tmpl ++ " |")

/-- HTTP/chat branch row: `b.objectId?.substring(0, 8) || ''`. -/
def branchesRowG (b : Json) : Except String String := do
  let n ← b.getp ("name")
  let o ← b.getp ("objectId")
  let oc ← jsSubstringOpt o 8
  let cr ← b.getp ("creator")
  pure ("| " ++ n.tmpl ++ " | " ++ (jor oc emptyStr).tmpl ++ " | "
    ++ (jor (cr.getOpt ("displayName")) emptyStr).tmpl ++ " |")

/-- MCP pull-request row: `pr.createdBy.displayName` without a guard. -/
def prsRowMcp (pr : Json) : Except String String := do
  let i ← pr.getp ("pullRequestId")
  let t ← pr.getp ("title")
  let s ← pr.getp ("status")
  let cb ← pr.getp ("createdBy")
  let dn ← cb.getp ("displayName")
  let cd ← pr.getp ("creationDate")
  pure ("| " ++ i.tmpl ++ " | " ++ t.tmpl ++ " | " ++ s.tmpl ++ " | " ++ dn.tmpl ++ " | " ++ cd.tmpl ++ " |")

/-- HTTP/chat pull-request row: `pr.createdBy?.displayName || ''`. -/
def prsRowG (pr : Json) : Except String String := do
  let i ← pr.getp ("pullRequestId")
  let t ← pr.getp ("title")
  let s ← pr.getp ("status")
  let cb ← pr.getp ("createdBy")
  let cd ← pr.getp ("creationDate")
  pure ("| " ++ i.tmpl ++ " | " ++ t.tmpl ++ " | " ++ s.tmpl ++ " | "
    ++ (jor (cb.getOpt ("displayName")) emptyStr).tmpl ++ " | " ++ cd.tmpl ++ " |")

def codeRow (r : Json) : Except String String := do
  let p ← r.getp ("project")
  let rp ← r.getp ("repository")
  let pa ← r.getp ("path")
  let m ← r.getp ("matches")
  pure ("| " ++ (jor (p.getOpt ("name")) emptyStr).tmpl ++ " | "
    ++ (jor (rp.getOpt ("name")) emptyStr).tmpl ++ " | " ++ (jor pa emptyStr).tmpl ++ " | "
    ++ (jor m.lenOpt (.num 0)).tmpl ++ " matches |")

def wiSearchRow (r : Json) : Except String String := do
  let f ← r.getp ("fields")
  pure ("| " ++ (jor (f.getOpt ("System.Id")) emptyStr).tmpl ++ " | "
    ++ (jor (f.getOpt ("System.Title")) emptyStr).tmpl ++ " | "
    ++ (jor (f.getOpt ("System.State")) emptyStr).tmpl ++ " | "
    ++ (jor (f.getOpt ("System.WorkItemType")) emptyStr).tmpl ++ " |")

def wikisRow (w : Json) : Except String String := do
  let i ← w.getp ("id")
  let n ← w.getp ("name")
  let t ← w.getp ("type")
  let p ← w.getp ("projectId")
  pure ("| " ++ i.tmpl ++ " | " ++ n.tmpl ++ " | " ++ t.tmpl ++ " | " ++ p.tmpl ++ " |")

/-- MCP `list_team_iterations` row: `i.attributes.startDate` unguarded. -/
def teamIterRowMcp (i : Json) : Except String String := do
  let iid ← i.getp ("id")
  let n ← i.getp ("name")
  let p ← i.getp ("path")
  let at1 ← i.getp ("attributes")
  let sd ← at1.getp ("startDate")
  let at2 ← i.getp ("attributes")
  let fd ← at2.getp ("finishDate")
  pure ("| " ++ iid.tmpl ++ " | " ++ n.tmpl ++ " | " ++ p.tmpl ++ " | " ++ (jor sd emptyStr).tmpl
    ++ " - " ++ (jor fd emptyStr).tmpl ++ " |")

/-- Guarded iteration row (`i.attributes?.startDate || ''`), used by MCP
`list_iterations` and by the HTTP/chat handlers for both iteration tools. -/
def iterRowG (i : Json) : Except String String := do
  let iid ← i.getp ("id")
  let n ← i.getp ("name")
  let p ← i.getp ("path")
  let at1 ← i.getp ("attributes")
  let at2 ← i.getp ("attributes")
  pure ("| " ++ iid.tmpl ++ " | " ++ n.tmpl ++ " | " ++ p.tmpl ++ " | "
    ++ (jor (at1.getOpt ("startDate")) emptyStr).tmpl ++ " - "
    ++ (jor (at2.getOpt ("finishDate")) emptyStr).tmpl ++ " |")

def testPlansRow (tp : Json) : Except String String := do
  let i ← tp.getp ("id")
  let n ← tp.getp ("name")
  let d ← tp.getp ("description")
  let a ← tp.getp ("areaPath")
  let it ← tp.getp ("iteration")
  pure ("| " ++ i.tmpl ++ " | " ++ n.tmpl ++ " | " ++ (jor d emptyStr).tmpl ++ " | "
    ++ (jor a emptyStr).tmpl ++ " | " ++ (jor it emptyStr).tmpl ++ " |")

def teamsRow (t : Json) : Except String String := do
  let i ← t.getp ("id")
  let n ← t.getp ("name")
  let d ← t.getp ("description")
  let p ← t.getp ("projectName")
  pure ("| " ++ i.tmpl ++ " | " ++ n.tmpl ++ " | " ++ (jor d emptyStr).tmpl ++ " | "
    ++ (jor p emptyStr).tmpl ++ " |")

def identitiesRow (idv : Json) : Except String String := do
  let l ← idv.getp ("localId")
  let d ← idv.getp ("displayName")
  let u ← idv.getp ("uniqueName")
  let s ← idv.getp ("subjectDescriptor")
  pure ("| " ++ l.tmpl ++ " | " ++ d.tmpl ++ " | " ++ u.tmpl ++ " | " ++ s.tmpl ++ " |")

def typesRow (t : Json) : Except String String := do
  let n ← t.getp ("name")
  let r ← t.getp ("referenceName")
  let d ← t.getp ("description")
  pure ("| " ++ n.tmpl ++ " | " ++ r.tmpl ++ " | " ++ (jor d emptyStr).tmpl ++ " |")

def buildDefsRow (d : Json) : Except String String := do
  let i ← d.getp ("id")
  let n ← d.getp ("name")
  let p ← d.getp ("path")
  let q ← d.getp ("queueStatus")
  pure ("| " ++ i.tmpl ++ " | " ++ n.tmpl ++ " | " ++ (jor p emptyStr).tmpl ++ " | "
    ++ (jor q emptyStr).tmpl ++ " |")

def releaseDefsRow (d : Json) : Except String String := do
  let i ← d.getp ("id")
  let n ← d.getp ("name")
  let p ← d.getp ("path")
  let r ← d.getp ("releaseNameFormat")
  pure ("| " ++ i.tmpl ++ " | " ++ n.tmpl ++ " | " ++ (jor p emptyStr).tmpl ++ " | "
    ++ (jor r emptyStr).tmpl ++ " |")

def queriesRow (q : Json) : Except String String := do
  let i ← q.getp ("id")
  let n ← q.getp ("name")
  let p ← q.getp ("path")
  let f ← q.getp ("isFolder")
  pure ("| " ++ i.tmpl ++ " | " ++ n.tmpl ++ " | " ++ (jor p emptyStr).tmpl ++ " | "
    ++ (if f.truthy then "Folder" else "Query") ++ " |")

def revisionsRow (r : Json) : Except String String := do
  let rv ← r.getp ("rev")
  let f1 ← r.getp ("fields")
  let f2 ← r.getp ("fields")
  let f3 ← r.getp ("fields")
  pure ("| " ++ rv.tmpl ++ " | " ++ (jor (f1.getOpt ("System.ChangedDate")) emptyStr).tmpl ++ " | "
    ++ (jor ((f2.getOpt ("System.ChangedBy")).getOpt ("displayName")) emptyStr).tmpl ++ " | "
    ++ (jor (f3.getOpt ("System.State")) emptyStr).tmpl ++ " |")

def linksRow (l : Json) : Except String String := do
  let r ← l.getp ("rel")
  let u ← l.getp ("url")
  let a ← l.getp ("attributes")
  pure ("| " ++ r.tmpl ++ " | " ++ u.tmpl ++ " | " ++ (jor (a.getOpt ("name")) emptyStr).tmpl ++ " |")

def commitsRow (c : Json) : Except String String := do
  let ci ← c.getp ("commitId")
  let cc ← jsSubstringOpt ci 8
  let a ← c.getp ("author")
  let m ← c.getp ("comment")
  let cm ← c.getp ("committer")
  pure ("| " ++ (jor cc emptyStr).tmpl ++ " | " ++ (jor (a.getOpt ("name")) emptyStr).tmpl ++ " | "
    ++ (jor m emptyStr).tmpl ++ " | " ++ (jor (cm.getOpt ("date")) emptyStr).tmpl ++ " |")

def areasRow (a : Json) : Except String String := do
  let i ← a.getp ("id")
  let n ← a.getp ("name")
  let p ← a.getp ("path")
  let s ← a.getp ("structureType")
  pure ("| " ++ i.tmpl ++ " | " ++ n.tmpl ++ " | " ++ (jor p emptyStr).tmpl ++ " | "
    ++ (jor s emptyStr).tmpl ++ " |")

def capacitiesRow (c : Json) : Except String String := do
  let tm ← c.getp ("teamMember")
  let act ← c.getp ("activities")
  let actCell ← (match act with
    | .undefined => Except.ok ""
    | .null => Except.ok ""
    | .arr xs => do
      let names ← xs.mapM (fun a => a.getp ("name"))
      Except.ok (String.intercalate (", ")
        (names.map (fun v => if v.isNullish then "" else v.tmpl)))
    | _ => Except.error ("TypeError"))
  let dof ← c.getp ("daysOff")
  pure ("| " ++ (jor (tm.getOpt ("displayName")) emptyStr).tmpl ++ " | " ++ actCell ++ " | "
    ++ (jor dof.lenOpt (.num 0)).tmpl ++ " days off |")

def categoriesRow (c : Json) : Except String String := do
  let n ← c.getp ("name")
  let r ← c.getp ("referenceName")
  let d ← c.getp ("defaultWorkItemType")
  pure ("| " ++ n.tmpl ++ " | " ++ r.tmpl ++ " | " ++ (jor (d.getOpt ("name")) emptyStr).tmpl ++ " |")

def dashRow (d : Json) : Except String String := do
  let i ← d.getp ("id")
  let n ← d.getp ("name")
  let de ← d.getp ("description")
  let m ← d.getp ("modifiedDate")
  pure ("| " ++ i.tmpl ++ " | " ++ n.tmpl ++ " | " ++ (jor de emptyStr).tmpl ++ " | "
    ++ (jor m emptyStr).tmpl ++ " |")

def pipelinesRow (p : Json) : Except String String := do
  let i ← p.getp ("id")
  let n ← p.getp ("name")
  let f ← p.getp ("folder")
  let r ← p.getp ("revision")
  pure ("| " ++ i.tmpl ++ " | " ++ n.tmpl ++ " | " ++ (jor f emptyStr).tmpl ++ " | "
    ++ (jor r emptyStr).tmpl ++ " |")

def suitesRow (ts : Json) : Except String String := do
  let i ← ts.getp ("id")
  let n ← ts.getp ("name")
  let c ← ts.getp ("testCaseCount")
  let t ← ts.getp ("suiteType")
  pure ("| " ++ i.tmpl ++ " | " ++ n.tmpl ++ " | " ++ (jor c (.num 0)).tmpl ++ " test cases | "
    ++ (jor t emptyStr).tmpl ++ " |")

def varGroupsRow (vg : Json) : Except String String := do
  let i ← vg.getp ("id")
  let n ← vg.getp ("name")
  let d ← vg.getp ("description")
  let vr ← vg.getp ("variableGroupProjectReferences")
  let pn := jor (((vr.idxOpt 0).getOpt ("projectReference")).getOpt ("name")) emptyStr
  pure ("| " ++ i.tmpl ++ " | " ++ n.tmpl ++ " | " ++ (jor d emptyStr).tmpl ++ " | "
    ++ pn.tmpl ++ " |")

def endpointsRow (se : Json) : Except String String := do
  let i ← se.getp ("id")
  let n ← se.getp ("name")
  let t ← se.getp ("type")
  let r ← se.getp ("isReady")
  pure ("| " ++ i.tmpl ++ " | " ++ n.tmpl ++ " | " ++ (jor t emptyStr).tmpl ++ " | "
    ++ (if r.truthy then "Ready" else "Not Ready") ++ " |")

def tagsRow (t : Json) : Except String String := do
  let i ← t.getp ("id")
  let n ← t.getp ("name")
  let a ← t.getp ("active")
  pure ("| " ++ i.tmpl ++ " | " ++ n.tmpl ++ " | " ++ (if a.truthy then "Active" else "Inactive") ++ " |")

def membersRow (m : Json) : Except String String := do
  let i1 ← m.getp ("identity")
  let i2 ← m.getp ("identity")
  let i3 ← m.getp ("identity")
  pure ("| " ++ (jor (i1.getOpt ("displayName")) emptyStr).tmpl ++ " | "
    ++ (jor (i2.getOpt ("uniqueName")) emptyStr).tmpl ++ " | "
    ++ (jor (i3.getOpt ("id")) emptyStr).tmpl ++ " |")

def boardsRow (b : Json) : Except String String := do
  let i ← b.getp ("id")
  let n ← b.getp ("name")
  let d ← b.getp ("description")
  pure ("| " ++ i.tmpl ++ " | " ++ n.tmpl ++ " | " ++ (jor d emptyStr).tmpl ++ " |")

def colsRow (c : Json) : Except String String := do
  let i ← c.getp ("id")
  let n ← c.getp ("name")
  let l ← c.getp ("itemLimit")
  let t ← c.getp ("columnType")
  pure ("| " ++ i.tmpl ++ " | " ++ n.tmpl ++ " | " ++ (jor l (.str ("No limit"))).tmpl ++ " | "
    ++ (jor t emptyStr).tmpl ++ " |")

def rowsRow (r : Json) : Except String String := do
  let i ← r.getp ("id")
  let n ← r.getp ("name")
  let rk ← r.getp ("rank")
  pure ("| " ++ i.tmpl ++ " | " ++ n.tmpl ++ " | " ++ (jor rk emptyStr).tmpl ++ " |")

def statesRow (s : Json) : Except String String := do
  let n ← s.getp ("name")
  let c ← s.getp ("category")
  let co ← s.getp ("color")
  let o ← s.getp ("order")
  pure ("| " ++ n.tmpl ++ " | " ++ (jor c emptyStr).tmpl ++ " | " ++ (jor co emptyStr).tmpl
    ++ " | " ++ (jor o emptyStr).tmpl ++ " |")

def fieldsRow (f : Json) : Except String String := do
  let r ← f.getp ("referenceName")
  let n ← f.getp ("name")
  let t ← f.getp ("type")
  let ro ← f.getp ("readOnly")
  pure ("| " ++ r.tmpl ++ " | " ++ n.tmpl ++ " | " ++ (jor t emptyStr).tmpl ++ " | "
    ++ (if ro.truthy then "Read-only" else "Editable") ++ " |")

def updatesRow (u : Json) : Except String String := do
  let i ← u.getp ("id")
  let r ← u.getp ("rev")
  let f1 ← u.getp ("fields")
  let f2 ← u.getp ("fields")
  pure ("| " ++ i.tmpl ++ " | " ++ r.tmpl ++ " | "
    ++ (jor (f1.getOpt ("System.ChangedDate")) emptyStr).tmpl ++ " | "
    ++ (jor ((f2.getOpt ("System.ChangedBy")).getOpt ("displayName")) emptyStr).tmpl ++ " |")

def attachmentsRow (a : Json) : Except String String := do
  let i ← a.getp ("id")
  let n ← a.getp ("name")
  let s ← a.getp ("size")
  let c ← a.getp ("createdDate")
  pure ("| " ++ i.tmpl ++ " | " ++ n.tmpl ++ " | " ++ (jor s emptyStr).tmpl ++ " | "
    ++ (jor c emptyStr).tmpl ++ " |")

def commentsRow (c : Json) : Except String String := do
  let i ← c.getp ("id")
  let t ← c.getp ("text")
  let cb ← c.getp ("createdBy")
  let cd ← c.getp ("createdDate")
  pure ("| " ++ i.tmpl ++ " | " ++ (jor t emptyStr).tmpl ++ " | "
    ++ (jor (cb.getOpt ("displayName")) emptyStr).tmpl ++ " | " ++ (jor cd emptyStr).tmpl ++ " |")

/-- Render a list-shaped payload: the `length === 0` guard, the fixed
empty message, otherwise count header plus one table row per element in
input order. -/
def fmtList (payload : Json) (emptyMsg : String) (title : String) (colHdr : String)
    (row : Json → Except String String) : Except String String := do
  let z ← payload.lenIsZero
  if z then pure emptyMsg
  else do
    let rows ← payload.jsMapRows row
    pure ("## " ++ title ++ " (" ++ toString payload.lenNat ++ ")\n" ++ colHdr ++ "\n"
      ++ String.intercalate ("\n") rows)

/-- Variant for `get_identity_ids`, whose guard is
`!identities || identities.length === 0`. -/
def fmtListT (payload : Json) (emptyMsg : String) (title : String) (colHdr : String)
    (row : Json → Except String String) : Except String String := do
  if !payload.truthy then pure emptyMsg
  else do
    let z ← payload.lenIsZero
    if z then pure emptyMsg
    else do
      let rows ← payload.jsMapRows row
      pure ("## " ++ title ++ " (" ++ toString payload.lenNat ++ ")\n" ++ colHdr ++ "\n"
        ++ String.intercalate ("\n") rows)

/-! Single-record and mutation-confirmation blocks.  The MCP handler
reads arguments through validated consts (`args?.x`, optional chaining,
never throwing), while the HTTP and chat handlers read `args.x` with
plain access inside the template. -/

/-- `get_pull_request` detail block, MCP handler (unguarded
`pr.repository.name` and `pr.createdBy.displayName`). -/
def prDetailMcp (pr : Json) : Except String String := do
  let pid ← pr.getp ("pullRequestId")
  let t ← pr.getp ("title")
  let repo ← pr.getp ("repository")
  let rn ← repo.getp ("name")
  let st ← pr.getp ("status")
  let cb1 ← pr.getp ("createdBy")
  let dn ← cb1.getp ("displayName")
  let cb2 ← pr.getp ("createdBy")
  let un ← cb2.getp ("uniqueName")
  let cd ← pr.getp ("creationDate")
  let src ← pr.getp ("sourceRefName")
  let tgt ← pr.getp ("targetRefName")
  let d ← pr.getp ("description")
  pure ("## Pull Request " ++ pid.tmpl ++ "\n**Title**: " ++ t.tmpl ++ "\n**Repository**: "
    ++ rn.tmpl ++ "\n**Status**: " ++ st.tmpl ++ "\n**Created By**: " ++ dn.tmpl ++ " ("
    ++ un.tmpl ++ ")\n**Created**: " ++ cd.tmpl ++ "\n**Source**: " ++ src.tmpl
    ++ "\n**Target**: " ++ tgt.tmpl ++ "\n"
    ++ (if d.truthy then "**Description**: " ++ d.tmpl else ""))

/-- `get_pull_request` detail block, HTTP/chat handlers (guarded). -/
def prDetailG (pr : Json) : Except String String := do
  let pid ← pr.getp ("pullRequestId")
  let t ← pr.getp ("title")
  let repo ← pr.getp ("repository")
  let st ← pr.getp ("status")
  let cb1 ← pr.getp ("createdBy")
  let cb2 ← pr.getp ("createdBy")
  let cd ← pr.getp ("creationDate")
  let src ← pr.getp ("sourceRefName")
  let tgt ← pr.getp ("targetRefName")
  let d ← pr.getp ("description")
  pure ("## Pull Request " ++ pid.tmpl ++ "\n**Title**: " ++ t.tmpl ++ "\n**Repository**: "
    ++ (jor (repo.getOpt ("name")) emptyStr).tmpl ++ "\n**Status**: " ++ st.tmpl
    ++ "\n**Created By**: " ++ (jor (cb1.getOpt ("displayName")) emptyStr).tmpl ++ " ("
    ++ (jor (cb2.getOpt ("uniqueName")) emptyStr).tmpl ++ ")\n**Created**: " ++ cd.tmpl
    ++ "\n**Source**: " ++ src.tmpl ++ "\n**Target**: " ++ tgt.tmpl ++ "\n"
    ++ (if d.truthy then "**Description**: " ++ d.tmpl else ""))

/-- `get_current_user` block (identical at all sites). -/
def currentUserBlock (u : Json) : Except String String := do
  let i ← u.getp ("id")
  let dn ← u.getp ("displayName")
  let un ← u.getp ("uniqueName")
  let em ← u.getp ("email")
  pure ("## Current User\n**ID**: " ++ i.tmpl ++ "\n**Display Name**: " ++ dn.tmpl
    ++ "\n**Unique Name**: " ++ un.tmpl ++ "\n**Email**: " ++ (jor em (.str ("N/A"))).tmpl)

/-- `create_work_item` confirmation, MCP handler; note the template's
trailing newline after the conditional description line. -/
def createWiBlockMcp (payload args : Json) : Except String String := do
  let wt := args.getOpt ("workItemType")
  let ti := args.getOpt ("title")
  let de := args.getOpt ("description")
  let i ← payload.getp ("id")
  let u ← payload.getp ("url")
  pure ("✅ Work item created successfully!\n**ID**: " ++ i.tmpl ++ "\n**Type**: " ++ wt.tmpl
    ++ "\n**Title**: " ++ ti.tmpl ++ "\n**URL**: " ++ u.tmpl ++ "\n"
    ++ (if de.truthy then "**Description**: " ++ de.tmpl else "") ++ "\n")

/-- `create_work_item` confirmation, HTTP/chat handlers (plain `args.x`
access, no trailing newline). -/
def createWiBlockG (payload args : Json) : Except String String := do
  let i ← payload.getp ("id")
  let wt ← args.getp ("workItemType")
  let ti ← args.getp ("title")
  let u ← payload.getp ("url")
  let de ← args.getp ("description")
  pure ("✅ Work item created successfully!\n**ID**: " ++ i.tmpl ++ "\n**Type**: " ++ wt.tmpl
    ++ "\n**Title**: " ++ ti.tmpl ++ "\n**URL**: " ++ u.tmpl ++ "\n"
    ++ (if de.truthy then "**Description**: " ++ de.tmpl else ""))

def updateFieldList (entries : List (String × Json)) : String :=
  String.intercalate ("\n") (entries.map (fun p => "- **" ++ p.1 ++ "**: " ++ p.2.tmpl))

/-- `update_work_item` confirmation, MCP handler (`fields` comes from the
validated `args?.fields`). -/
def updateBlockMcp (payload args : Json) : Except String String := do
  let fields := args.getOpt ("fields")
  let comment := args.getOpt ("comment")
  let entries ← jsEntries fields
  let i ← payload.getp ("id")
  pure ("✅ Work item " ++ i.tmpl ++ " updated successfully!\n**Updated fields**:\n"
    ++ updateFieldList entries ++ "\n"
    ++ (if comment.truthy then "**Comment**: " ++ comment.tmpl else ""))

/-- `update_work_item` confirmation, HTTP handler
(`const fields = args.fields || {}`, no object guard). -/
def updateBlockHttp (payload args : Json) : Except String String := do
  let f0 ← args.getp ("fields")
  let fields := jor f0 (.obj [])
  let entries ← jsEntries fields
  let i ← payload.getp ("id")
  let c ← args.getp ("comment")
  pure ("✅ Work item " ++ i.tmpl ++ " updated successfully!\n**Updated fields**:\n"
    ++ updateFieldList entries ++ "\n"
    ++ (if c.truthy then "**Comment**: " ++ c.tmpl else ""))

/-- `update_work_item` confirmation, chat handler (adds the
`typeof fields === 'object' && fields !== null` guard). -/
def updateBlockChat (payload args : Json) : Except String String := do
  let f0 ← args.getp ("fields")
  let fields := jor f0 (.obj [])
  let safe := if jsIsObjectNotNull fields then fields else .obj []
  let entries ← jsEntries safe
  let i ← payload.getp ("id")
  let c ← args.getp ("comment")
  pure ("✅ Work item " ++ i.tmpl ++ " updated successfully!\n**Updated fields**:\n"
    ++ updateFieldList entries ++ "\n"
    ++ (if c.truthy then "**Comment**: " ++ c.tmpl else ""))

/-- `assign_work_item` confirmation, MCP handler. -/
def assignBlockMcp (payload args : Json) : Except String String := do
  let assignee := args.getOpt ("assignee")
  let comment := args.getOpt ("comment")
  let i ← payload.getp ("id")
  pure ("✅ Work item " ++ i.tmpl ++ " assigned to " ++ assignee.tmpl ++ " successfully!\n"
    ++ (if comment.truthy then "**Comment**: " ++ comment.tmpl else ""))

/-- `assign_work_item` confirmation, HTTP/chat handlers. -/
def assignBlockG (payload args : Json) : Except String String := do
  let i ← payload.getp ("id")
  let a ← args.getp ("assignee")
  let c ← args.getp ("comment")
  pure ("✅ Work item " ++ i.tmpl ++ " assigned to " ++ a.tmpl ++ " successfully!\n"
    ++ (if c.truthy then "**Comment**: " ++ c.tmpl else ""))

/-- `get_wiki_page` block, MCP handler (path from the validated const
`(args?.path as string) || '/'`). -/
def wikiPageBlockMcp (payload args : Json) : Except String String := do
  let path := jor (args.getOpt ("path")) (.str ("/"))
  pure ("## Wiki Page: " ++ path.tmpl ++ "\n" ++ payload.tmpl)

/-- `get_wiki_page` block, HTTP/chat handlers (`${args.path || '/'}`). -/
def wikiPageBlockG (payload args : Json) : Except String String := do
  let p ← args.getp ("path")
  pure ("## Wiki Page: " ++ (jor p (.str ("/"))).tmpl ++ "\n" ++ payload.tmpl)

/-- `get_file_content` block, MCP handler (path from the validated const). -/
def fileBlockMcp (payload args : Json) : Except String String := do
  let path := args.getOpt ("path")
  pure ("## File: " ++ path.tmpl ++ "\n```\n" ++ payload.tmpl ++ "\n```")

/-- `get_file_content` block, HTTP/chat handlers (`${args.path}`). -/
def fileBlockG (payload args : Json) : Except String String := do
  let p ← args.getp ("path")
  pure ("## File: " ++ p.tmpl ++ "\n```\n" ++ payload.tmpl ++ "\n```")

/-- `create_pull_request` confirmation, MCP handler (args through the
validated consts). -/
def createPrBlockMcp (payload args : Json) : Except String String := do
  let ti := args.getOpt ("title")
  let sb := args.getOpt ("sourceBranch")
  let tb := args.getOpt ("targetBranch")
  let de := args.getOpt ("description")
  let pid ← payload.getp ("pullRequestId")
  let repo ← payload.getp ("repository")
  let st ← payload.getp ("status")
  let u ← payload.getp ("url")
  pure ("✅ Pull request created successfully!\n**ID**: " ++ pid.tmpl ++ "\n**Title**: "
    ++ ti.tmpl ++ "\n**Repository**: " ++ (jor (repo.getOpt ("name")) emptyStr).tmpl
    ++ "\n**Source**: " ++ sb.tmpl ++ "\n**Target**: " ++ tb.tmpl ++ "\n**Status**: "
    ++ st.tmpl ++ "\n**URL**: " ++ (jor u (.str ("N/A"))).tmpl ++ "\n"
    ++ (if de.truthy then "**Description**: " ++ de.tmpl else ""))

/-- `create_pull_request` confirmation, HTTP/chat handlers (plain
`args.x` access inside the template). -/
def createPrBlockG (payload args : Json) : Except String String := do
  let pid ← payload.getp ("pullRequestId")
  let ti ← args.getp ("title")
  let repo ← payload.getp ("repository")
  let sb ← args.getp ("sourceBranch")
  let tb ← args.getp ("targetBranch")
  let st ← payload.getp ("status")
  let u ← payload.getp ("url")
  let de ← args.getp ("description")
  pure ("✅ Pull request created successfully!\n**ID**: " ++ pid.tmpl ++ "\n**Title**: "
    ++ ti.tmpl ++ "\n**Repository**: " ++ (jor (repo.getOpt ("name")) emptyStr).tmpl
    ++ "\n**Source**: " ++ sb.tmpl ++ "\n**Target**: " ++ tb.tmpl ++ "\n**Status**: "
    ++ st.tmpl ++ "\n**URL**: " ++ (jor u (.str ("N/A"))).tmpl ++ "\n"
    ++ (if de.truthy then "**Description**: " ++ de.tmpl else ""))

/-! The tool registry (`const tools: Tool[]` in `index.ts`): the tool
names in declaration order, and the `required` list of each tool's
`inputSchema`. -/

def toolNames : List String :=
  ["list_projects", "list_project_teams", "get_identity_ids", "query_work_items",
   "get_work_items_by_ids", "get_builds", "get_releases", "create_work_item",
   "update_work_item", "assign_work_item", "list_repositories", "list_branches",
   "list_pull_requests", "get_pull_request", "search_code", "search_work_items",
   "list_wikis", "get_wiki_page", "list_team_iterations", "list_test_plans",
   "get_current_user", "list_work_item_types", "list_iterations",
   "list_build_definitions", "list_release_definitions", "list_queries",
   "get_work_item_revisions", "get_work_item_links", "create_pull_request",
   "list_commits", "get_file_content", "list_areas", "list_iteration_capacities",
   "list_work_item_categories", "list_dashboards", "list_pipelines",
   "list_test_suites", "list_variable_groups", "list_service_endpoints",
   "list_tags", "list_team_members", "list_boards", "list_board_columns",
   "list_board_rows", "list_work_item_states", "list_work_item_fields",
   "list_work_item_updates", "list_work_item_attachments", "list_work_item_comments",
   "list_work_item_relations", "list_work_item_query_results"]

def registryRequired : List (String × List String) :=
  [("list_projects", []),
   ("list_project_teams", ["project"]),
   ("get_identity_ids", ["searchFilter"]),
   ("query_work_items", ["wiql"]),
   ("get_work_items_by_ids", ["ids"]),
   ("get_builds", []),
   ("get_releases", []),
   ("create_work_item", ["workItemType", "title"]),
   ("update_work_item", ["id", "fields"]),
   ("assign_work_item", ["id", "assignee"]),
   ("list_repositories", []),
   ("list_branches", ["repositoryId"]),
   ("list_pull_requests", []),
   ("get_pull_request", ["repositoryId", "pullRequestId"]),
   ("search_code", ["searchText"]),
   ("search_work_items", ["searchText"]),
   ("list_wikis", []),
   ("get_wiki_page", ["wikiIdentifier"]),
   ("list_team_iterations", ["project", "team"]),
   ("list_test_plans", ["project"]),
   ("get_current_user", []),
   ("list_work_item_types", []),
   ("list_iterations", []),
   ("list_build_definitions", []),
   ("list_release_definitions", []),
   ("list_queries", []),
   ("get_work_item_revisions", ["id"]),
   ("get_work_item_links", ["id"]),
   ("create_pull_request", ["repositoryId", "sourceBranch", "targetBranch", "title"]),
   ("list_commits", ["repositoryId"]),
   ("get_file_content", ["repositoryId", "path"]),
   ("list_areas", []),
   ("list_iteration_capacities", ["project", "team", "iterationId"]),
   ("list_work_item_categories", []),
   ("list_dashboards", []),
   ("list_pipelines", []),
   ("list_test_suites", ["project", "planId"]),
   ("list_variable_groups", []),
   ("list_service_endpoints", []),
   ("list_tags", []),
   ("list_team_members", ["project", "team"]),
   ("list_boards", ["project", "team"]),
   ("list_board_columns", ["project", "team", "board"]),
   ("list_board_rows", ["project", "team", "board"]),
   ("list_work_item_states", ["project", "workItemType"]),
   ("list_work_item_fields", []),
   ("list_work_item_updates", ["id"]),
   ("list_work_item_attachments", ["id"]),
   ("list_work_item_comments", ["id"]),
   ("list_work_item_relations", ["id"]),
   ("list_work_item_query_results", ["project", "queryId"])]

/-- `args?.k` as the MCP handler reads every argument. -/
def jarg (args : Json) (k : String) : Json := args.getOpt k

/-- A Backend Client invocation: the method name and the positional
arguments exactly as the dispatcher passes them. -/
structure BackendCall where
  method : String
  params : List Json

/-- Is the value an array (`Array.isArray`)? -/
def Json.isArr : Json → Bool
  | .arr _ => true
  | _ => false

/-- The MCP `CallToolRequestSchema` handler up to (and including) the
single Backend Client call of each `case`: argument extraction, the
explicit validation `throw`s, `||` defaulting, and the positional
parameter list handed to the client.  The `default` case throws
`Unknown tool: <name>`. -/
def mcpDispatch (name : String) (args : Json) : Except String BackendCall :=
  if name = "list_projects" then .ok ⟨"getProjects", []⟩
  else if name = "query_work_items" then
    let wiql := jarg args ("wiql")
    if !wiql.truthy then .error ("wiql argument is required")
    else .ok ⟨"queryWorkItems", [wiql]⟩
  else if name = "get_work_items_by_ids" then
    let ids := jarg args ("ids")
    if !ids.truthy || !ids.isArr then .error ("ids argument must be an array of numbers")
    else .ok ⟨"getWorkItems", [ids]⟩
  else if name = "get_builds" then
    let definitionId := jarg args ("definitionId")
    let top := jor (jarg args ("top")) (.num 10)
    .ok ⟨"getBuilds", [definitionId, top]⟩
  else if name = "get_releases" then
    let top := jor (jarg args ("top")) (.num 10)
    .ok ⟨"getReleases", [top]⟩
  else if name = "create_work_item" then
    let workItemType := jarg args ("workItemType")
    let title := jarg args ("title")
    let description := jarg args ("description")
    let additionalFields := jarg args ("additionalFields")
    if !workItemType.truthy || !title.truthy then .error ("workItemType and title are required")
    else .ok ⟨"createWorkItem", [workItemType, title, description, additionalFields]⟩
  else if name = "update_work_item" then
    let id := jarg args ("id")
    let fields := jarg args ("fields")
    let comment := jarg args ("comment")
    if !id.truthy || !fields.truthy then .error ("id and fields are required")
    else .ok ⟨"updateWorkItem", [id, fields, comment]⟩
  else if name = "assign_work_item" then
    let id := jarg args ("id")
    let assignee := jarg args ("assignee")
    let comment := jarg args ("comment")
    if !id.truthy || !assignee.truthy then .error ("id and assignee are required")
    else .ok ⟨"assignWorkItem", [id, assignee, comment]⟩
  else if name = "list_repositories" then
    .ok ⟨"getRepositories", [jarg args ("project")]⟩
  else if name = "list_branches" then
    .ok ⟨"getBranches", [jarg args ("repositoryId"), jarg args ("project")]⟩
  else if name = "list_pull_requests" then
    let repositoryId := jarg args ("repositoryId")
    let project := jarg args ("project")
    let top := jor (jarg args ("top")) (.num 100)
    let status := jor (jarg args ("status")) (.str ("active"))
    .ok ⟨"getPullRequests", [repositoryId, project, top, status]⟩
  else if name = "get_pull_request" then
    .ok ⟨"getPullRequestById",
      [jarg args ("repositoryId"), jarg args ("pullRequestId"), jarg args ("project")]⟩
  else if name = "search_code" then
    let searchText := jarg args ("searchText")
    let project := jarg args ("project")
    let repository := jarg args ("repository")
    let top := jor (jarg args ("top")) (.num 5)
    .ok ⟨"searchCode", [searchText, project, repository, top]⟩
  else if name = "search_work_items" then
    let searchText := jarg args ("searchText")
    let project := jarg args ("project")
    let top := jor (jarg args ("top")) (.num 10)
    .ok ⟨"searchWorkItems", [searchText, project, top]⟩
  else if name = "list_wikis" then
    .ok ⟨"getWikis", [jarg args ("project")]⟩
  else if name = "get_wiki_page" then
    let wikiIdentifier := jarg args ("wikiIdentifier")
    let project := jarg args ("project")
    let path := jor (jarg args ("path")) (.str ("/"))
    .ok ⟨"getWikiPageContent", [wikiIdentifier, project, path]⟩
  else if name = "list_team_iterations" then
    .ok ⟨"getTeamIterations", [jarg args ("project"), jarg args ("team")]⟩
  else if name = "list_test_plans" then
    .ok ⟨"getTestPlans", [jarg args ("project")]⟩
  else if name = "list_project_teams" then
    let project := jarg args ("project")
    let mine := jarg args ("mine")
    let top := jor (jarg args ("top")) (.num 100)
    let skip := jor (jarg args ("skip")) (.num 0)
    .ok ⟨"getTeams", [project, mine, top, skip]⟩
  else if name = "get_identity_ids" then
    let searchFilter := jarg args ("searchFilter")
    if !searchFilter.truthy then .error ("searchFilter argument is required")
    else .ok ⟨"searchIdentities", [searchFilter]⟩
  else if name = "get_current_user" then .ok ⟨"getCurrentUser", []⟩
  else if name = "list_work_item_types" then
    .ok ⟨"getWorkItemTypes", [jarg args ("project")]⟩
  else if name = "list_iterations" then
    .ok ⟨"getIterations", [jarg args ("project")]⟩
  else if name = "list_build_definitions" then
    .ok ⟨"getBuildDefinitions", [jarg args ("project")]⟩
  else if name = "list_release_definitions" then
    .ok ⟨"getReleaseDefinitions", [jarg args ("project")]⟩
  else if name = "list_queries" then
    .ok ⟨"getQueries", [jarg args ("project")]⟩
  else if name = "get_work_item_revisions" then
    let id := jarg args ("id")
    let project := jarg args ("project")
    if !id.truthy then .error ("id argument is required")
    else .ok ⟨"getWorkItemRevisions", [id, project]⟩
  else if name = "get_work_item_links" then
    let id := jarg args ("id")
    let project := jarg args ("project")
    if !id.truthy then .error ("id argument is required")
    else .ok ⟨"getWorkItemLinks", [id, project]⟩
  else if name = "create_pull_request" then
    let repositoryId := jarg args ("repositoryId")
    let sourceBranch := jarg args ("sourceBranch")
    let targetBranch := jarg args ("targetBranch")
    let title := jarg args ("title")
    let description := jarg args ("description")
    let project := jarg args ("project")
    if !repositoryId.truthy || !sourceBranch.truthy || !targetBranch.truthy || !title.truthy then
      .error ("repositoryId, sourceBranch, targetBranch, and title are required")
    else .ok ⟨"createPullRequest",
      [repositoryId, sourceBranch, targetBranch, title, description, project]⟩
  else if name = "list_commits" then
    let repositoryId := jarg args ("repositoryId")
    let project := jarg args ("project")
    let top := jor (jarg args ("top")) (.num 10)
    if !repositoryId.truthy then .error ("repositoryId argument is required")
    else .ok ⟨"getCommits", [repositoryId, project, top]⟩
  else if name = "get_file_content" then
    let repositoryId := jarg args ("repositoryId")
    let path := jarg args ("path")
    let project := jarg args ("project")
    if !repositoryId.truthy || !path.truthy then .error ("repositoryId and path are required")
    else .ok ⟨"getFileContent", [repositoryId, path, project]⟩
  else if name = "list_areas" then
    .ok ⟨"getAreas", [jarg args ("project")]⟩
  else if name = "list_iteration_capacities" then
    let project := jarg args ("project")
    let team := jarg args ("team")
    let iterationId := jarg args ("iterationId")
    if !project.truthy || !team.truthy || !iterationId.truthy then
      .error ("project, team, and iterationId are required")
    else .ok ⟨"getIterationCapacities", [project, team, iterationId]⟩
  else if name = "list_work_item_categories" then
    .ok ⟨"getWorkItemCategories", [jarg args ("project")]⟩
  else if name = "list_dashboards" then
    .ok ⟨"getDashboards", [jarg args ("project")]⟩
  else if name = "list_pipelines" then
    .ok ⟨"getPipelines", [jarg args ("project")]⟩
  else if name = "list_test_suites" then
    let project := jarg args ("project")
    let planId := jarg args ("planId")
    if !project.truthy || !planId.truthy then .error ("project and planId are required")
    else .ok ⟨"getTestSuites", [project, planId]⟩
  else if name = "list_variable_groups" then
    .ok ⟨"getVariableGroups", [jarg args ("project")]⟩
  else if name = "list_service_endpoints" then
    .ok ⟨"getServiceEndpoints", [jarg args ("project")]⟩
  else if name = "list_tags" then
    .ok ⟨"getTags", [jarg args ("project")]⟩
  else if name = "list_team_members" then
    let project := jarg args ("project")
    let team := jarg args ("team")
    if !project.truthy || !team.truthy then .error ("project and team are required")
    else .ok ⟨"getTeamMembers", [project, team]⟩
  else if name = "list_boards" then
    let project := jarg args ("project")
    let team := jarg args ("team")
    if !project.truthy || !team.truthy then .error ("project and team are required")
    else .ok ⟨"getBoards", [project, team]⟩
  else if name = "list_board_columns" then
    let project := jarg args ("project")
    let team := jarg args ("team")
    let board := jarg args ("board")
    if !project.truthy || !team.truthy || !board.truthy then
      .error ("project, team, and board are required")
    else .ok ⟨"getBoardColumns", [project, team, board]⟩
  else if name = "list_board_rows" then
    let project := jarg args ("project")
    let team := jarg args ("team")
    let board := jarg args ("board")
    if !project.truthy || !team.truthy || !board.truthy then
      .error ("project, team, and board are required")
    else .ok ⟨"getBoardRows", [project, team, board]⟩
  else if name = "list_work_item_states" then
    let project := jarg args ("project")
    let workItemType := jarg args ("workItemType")
    if !project.truthy || !workItemType.truthy then
      .error ("project and workItemType are required")
    else .ok ⟨"getWorkItemStates", [project, workItemType]⟩
  else if name = "list_work_item_fields" then
    .ok ⟨"getWorkItemFields", [jarg args ("project")]⟩
  else if name = "list_work_item_updates" then
    let id := jarg args ("id")
    let project := jarg args ("project")
    if !id.truthy then .error ("id is required")
    else .ok ⟨"getWorkItemUpdates", [id, project]⟩
  else if name = "list_work_item_attachments" then
    let id := jarg args ("id")
    let project := jarg args ("project")
    if !id.truthy then .error ("id is required")
    else .ok ⟨"getWorkItemAttachments", [id, project]⟩
  else if name = "list_work_item_comments" then
    let id := jarg args ("id")
    let project := jarg args ("project")
    if !id.truthy then .error ("id is required")
    else .ok ⟨"getWorkItemComments", [id, project]⟩
  else if name = "list_work_item_relations" then
    let id := jarg args ("id")
    let project := jarg args ("project")
    if !id.truthy then .error ("id is required")
    else .ok ⟨"getWorkItemRelations", [id, project]⟩
  else if name = "list_work_item_query_results" then
    let project := jarg args ("project")
    let queryId := jarg args ("queryId")
    if !project.truthy || !queryId.truthy then .error ("project and queryId are required")
    else .ok ⟨"getQueryResults", [project, queryId]⟩
  else .error ("Unknown tool: " ++ name)

/-- The formatting part of each MCP handler `case`, applied to the raw
client result (`payload`) and the original arguments object. -/
def mcpFormat (name : String) (payload : Json) (args : Json) : Except String String :=
  if name = "list_projects" then
    fmtList payload ("No projects found.") ("Projects")
      ("| ID | Name | Description | URL |\n|----|------|-------------|-----|") projectsRow
  else if name = "query_work_items" then
    fmtList payload ("No work items match the query.") ("Work Items")
      ("| ID | Title | State | Assigned To | Type |\n|----|-------|-------|-------------|------|")
      workItemRow
  else if name = "get_work_items_by_ids" then
    fmtList payload ("No work items found with those IDs.") ("Work Items")
      ("| ID | Title | State | Assigned To | Type |\n|----|-------|-------|-------------|------|")
      workItemRow
  else if name = "get_builds" then
    fmtList payload ("No builds found.") ("Builds")
      ("| ID | Build Number | Status | Result | Queue Time | Branch |\n|----|--------------|--------|--------|------------|--------|")
      buildsRow
  else if name = "get_releases" then
    fmtList payload ("No releases found.") ("Releases")
      ("| ID | Name | Status | Created | Modified |\n|----|------|--------|---------|----------|")
      releasesRow
  else if name = "create_work_item" then createWiBlockMcp payload args
  else if name = "update_work_item" then updateBlockMcp payload args
  else if name = "assign_work_item" then assignBlockMcp payload args
  else if name = "list_repositories" then
    fmtList payload ("No repositories found.") ("Repositories")
      ("| ID | Name | Status | Fork | URL |\n|----|------|--------|------|-----|") reposRow
  else if name = "list_branches" then
    fmtList payload ("No branches found.") ("Branches")
      ("| Name | Commit | Creator |\n|------|--------|---------|") branchesRowMcp
  else if name = "list_pull_requests" then
    fmtList payload ("No pull requests found.") ("Pull Requests")
      ("| ID | Title | Status | Created By | Created |\n|----|-------|--------|------------|---------|")
      prsRowMcp
  else if name = "get_pull_request" then prDetailMcp payload
  else if name = "search_code" then
    fmtList payload ("No code search results found.") ("Code Search Results")
      ("| Project | Repository | Path | Matches |\n|---------|------------|------|---------|")
      codeRow
  else if name = "search_work_items" then
    fmtList payload ("No work item search results found.") ("Work Item Search Results")
      ("| ID | Title | State | Type |\n|----|-------|-------|------|") wiSearchRow
  else if name = "list_wikis" then
    fmtList payload ("No wikis found.") ("Wikis")
      ("| ID | Name | Type | Project ID |\n|----|------|------|------------|") wikisRow
  else if name = "get_wiki_page" then wikiPageBlockMcp payload args
  else if name = "list_team_iterations" then
    fmtList payload ("No iterations found for this team.") ("Iterations")
      ("| ID | Name | Path | Dates |\n|----|------|------|-------|") teamIterRowMcp
  else if name = "list_test_plans" then
    fmtList payload ("No test plans found.") ("Test Plans")
      ("| ID | Name | Description | Area Path | Iteration |\n|----|------|-------------|-----------|-----------|")
      testPlansRow
  else if name = "list_project_teams" then
    fmtList payload ("No teams found.") ("Teams")
      ("| ID | Name | Description | Project |\n|----|------|-------------|---------|") teamsRow
  else if name = "get_identity_ids" then
    fmtListT payload ("No identities found.") ("Identities")
      ("| Local ID | Display Name | Unique Name | Subject Descriptor |\n|----------|--------------|-------------|-------------------|")
      identitiesRow
  else if name = "get_current_user" then currentUserBlock payload
  else if name = "list_work_item_types" then
    fmtList payload ("No work item types found.") ("Work Item Types")
      ("| Name | Reference Name | Description |\n|------|----------------|-------------|") typesRow
  else if name = "list_iterations" then
    fmtList payload ("No iterations found.") ("Iterations")
      ("| ID | Name | Path | Dates |\n|----|------|------|-------|") iterRowG
  else if name = "list_build_definitions" then
    fmtList payload ("No build definitions found.") ("Build Definitions")
      ("| ID | Name | Path | Queue Status |\n|----|------|------|-------------|") buildDefsRow
  else if name = "list_release_definitions" then
    fmtList payload ("No release definitions found.") ("Release Definitions")
      ("| ID | Name | Path | Release Name Format |\n|----|------|------|-------------------|")
      releaseDefsRow
  else if name = "list_queries" then
    fmtList payload ("No queries found.") ("Queries")
      ("| ID | Name | Path | Type |\n|----|------|------|------|") queriesRow
  else if name = "get_work_item_revisions" then
    fmtList payload ("No revisions found for this work item.") ("Work Item Revisions")
      ("| Rev | Changed Date | Changed By | State |\n|-----|--------------|------------|-------|")
      revisionsRow
  else if name = "get_work_item_links" then
    fmtList payload ("No links found for this work item.") ("Work Item Links")
      ("| Relation | URL | Name |\n|----------|-----|------|") linksRow
  else if name = "create_pull_request" then createPrBlockMcp payload args
  else if name = "list_commits" then
    fmtList payload ("No commits found.") ("Commits")
      ("| Commit | Author | Message | Date |\n|--------|--------|---------|------|") commitsRow
  else if name = "get_file_content" then fileBlockMcp payload args
  else if name = "list_areas" then
    fmtList payload ("No areas found.") ("Areas")
      ("| ID | Name | Path | Type |\n|----|------|------|------|") areasRow
  else if name = "list_iteration_capacities" then
    fmtList payload ("No capacities found for this iteration.") ("Iteration Capacities")
      ("| Team Member | Activities | Days Off |\n|-------------|------------|----------|")
      capacitiesRow
  else if name = "list_work_item_categories" then
    fmtList payload ("No work item categories found.") ("Work Item Categories")
      ("| Name | Reference Name | Default Work Item Type |\n|------|----------------|------------------------|")
      categoriesRow
  else if name = "list_dashboards" then
    fmtList payload ("No dashboards found.") ("Dashboards")
      ("| ID | Name | Description | Modified |\n|----|------|-------------|----------|") dashRow
  else if name = "list_pipelines" then
    fmtList payload ("No pipelines found.") ("Pipelines")
      ("| ID | Name | Folder | Revision |\n|----|------|--------|----------|") pipelinesRow
  else if name = "list_test_suites" then
    fmtList payload ("No test suites found.") ("Test Suites")
      ("| ID | Name | Test Cases | Type |\n|----|------|------------|------|") suitesRow
  else if name = "list_variable_groups" then
    fmtList payload ("No variable groups found.") ("Variable Groups")
      ("| ID | Name | Description | Project |\n|----|------|-------------|---------|")
      varGroupsRow
  else if name = "list_service_endpoints" then
    fmtList payload ("No service endpoints found.") ("Service Endpoints")
      ("| ID | Name | Type | Status |\n|----|------|------|--------|") endpointsRow
  else if name = "list_tags" then
    fmtList payload ("No tags found.") ("Tags")
      ("| ID | Name | Status |\n|----|------|--------|") tagsRow
  else if name = "list_team_members" then
    fmtList payload ("No team members found.") ("Team Members")
      ("| Display Name | Unique Name | ID |\n|--------------|-------------|----|") membersRow
  else if name = "list_boards" then
    fmtList payload ("No boards found.") ("Boards")
      ("| ID | Name | Description |\n|----|------|-------------|") boardsRow
  else if name = "list_board_columns" then
    fmtList payload ("No board columns found.") ("Board Columns")
      ("| ID | Name | Item Limit | Type |\n|----|------|------------|------|") colsRow
  else if name = "list_board_rows" then
    fmtList payload ("No board rows found.") ("Board Rows")
      ("| ID | Name | Rank |\n|----|------|------|") rowsRow
  else if name = "list_work_item_states" then
    fmtList payload ("No work item states found.") ("Work Item States")
      ("| Name | Category | Color | Order |\n|------|----------|-------|-------|") statesRow
  else if name = "list_work_item_fields" then
    fmtList payload ("No work item fields found.") ("Work Item Fields")
      ("| Reference Name | Name | Type | Access |\n|----------------|------|------|--------|")
      fieldsRow
  else if name = "list_work_item_updates" then
    fmtList payload ("No updates found for this work item.") ("Work Item Updates")
      ("| Update ID | Revision | Changed Date | Changed By |\n|-----------|----------|--------------|------------|")
      updatesRow
  else if name = "list_work_item_attachments" then
    fmtList payload ("No attachments found for this work item.") ("Work Item Attachments")
      ("| ID | Name | Size | Created Date |\n|----|------|------|--------------|")
      attachmentsRow
  else if name = "list_work_item_comments" then
    fmtList payload ("No comments found for this work item.") ("Work Item Comments")
      ("| ID | Text | Created By | Created Date |\n|----|------|------------|--------------|")
      commentsRow
  else if name = "list_work_item_relations" then
    fmtList payload ("No relations found for this work item.") ("Work Item Relations")
      ("| Relation | URL | Name |\n|----------|-----|------|") linksRow
  else if name = "list_work_item_query_results" then
    fmtList payload ("No work items found for this query.") ("Query Results")
      ("| ID | Title | State | Assigned To | Type |\n|----|-------|-------|-------------|------|")
      workItemRow
  else .error ("unreachable")

/-- A backend oracle: the result (or thrown message) of each Backend
Client method invocation the dispatcher performs. -/
def BackendOracle := BackendCall → Except String Json

/-- The body of the MCP handler's `try` block: validate and dispatch,
invoke the Backend Client, format the result. -/
def mcpTry (name : String) (args : Json) (oracle : BackendOracle) : Except String String := do
  let call ← mcpDispatch name args
  let payload ← oracle call
  mcpFormat name payload args

/-- The textual tool result returned to the MCP caller. -/
structure McpOut where
  text : String
  isError : Bool
deriving DecidableEq

/-- The whole MCP `CallToolRequestSchema` handler: the `try` body wrapped
in the `catch` that renders any thrown error as
`Error: <message>` with `isError: true`. -/
def mcpHandler (name : String) (args : Json) (oracle : BackendOracle) : McpOut :=
  match mcpTry name args oracle with
  | .ok t => ⟨t, false⟩
  | .error m => ⟨("Error: ") ++ m, true⟩

/-- The `POST /api/tools/:name` switch: every case forwards `args.x`
positionally to the client with no validation (`none` models the
`default` case's 400 response, reached without throwing). -/
def httpDispatch (name : String) (args : Json) : Except String (Option BackendCall) :=
  if name = "list_projects" then .ok (some ⟨"getProjects", []⟩)
  else if name = "query_work_items" then do
    let w ← args.getp ("wiql")
    .ok (some ⟨"queryWorkItems", [w]⟩)
  else if name = "get_work_items_by_ids" then do
    let i ← args.getp ("ids")
    .ok (some ⟨"getWorkItems", [i]⟩)
  else if name = "get_builds" then do
    let d ← args.getp ("definitionId")
    let t ← args.getp ("top")
    .ok (some ⟨"getBuilds", [d, t]⟩)
  else if name = "get_releases" then do
    let t ← args.getp ("top")
    .ok (some ⟨"getReleases", [t]⟩)
  else if name = "create_work_item" then do
    let w ← args.getp ("workItemType")
    let t ← args.getp ("title")
    let d ← args.getp ("description")
    let a ← args.getp ("additionalFields")
    .ok (some ⟨"createWorkItem", [w, t, d, a]⟩)
  else if name = "update_work_item" then do
    let i ← args.getp ("id")
    let f ← args.getp ("fields")
    let c ← args.getp ("comment")
    .ok (some ⟨"updateWorkItem", [i, f, c]⟩)
  else if name = "assign_work_item" then do
    let i ← args.getp ("id")
    let a ← args.getp ("assignee")
    let c ← args.getp ("comment")
    .ok (some ⟨"assignWorkItem", [i, a, c]⟩)
  else if name = "list_repositories" then do
    let p ← args.getp ("project")
    .ok (some ⟨"getRepositories", [p]⟩)
  else if name = "list_branches" then do
    let r ← args.getp ("repositoryId")
    let p ← args.getp ("project")
    .ok (some ⟨"getBranches", [r, p]⟩)
  else if name = "list_pull_requests" then do
    let r ← args.getp ("repositoryId")
    let p ← args.getp ("project")
    let t ← args.getp ("top")
    let s ← args.getp ("status")
    .ok (some ⟨"getPullRequests", [r, p, t, s]⟩)
  else if name = "get_pull_request" then do
    let r ← args.getp ("repositoryId")
    let i ← args.getp ("pullRequestId")
    let p ← args.getp ("project")
    .ok (some ⟨"getPullRequestById", [r, i, p]⟩)
  else if name = "search_code" then do
    let s ← args.getp ("searchText")
    let p ← args.getp ("project")
    let r ← args.getp ("repository")
    let t ← args.getp ("top")
    .ok (some ⟨"searchCode", [s, p, r, t]⟩)
  else if name = "search_work_items" then do
    let s ← args.getp ("searchText")
    let p ← args.getp ("project")
    let t ← args.getp ("top")
    .ok (some ⟨"searchWorkItems", [s, p, t]⟩)
  else if name = "list_wikis" then do
    let p ← args.getp ("project")
    .ok (some ⟨"getWikis", [p]⟩)
  else if name = "get_wiki_page" then do
    let w ← args.getp ("wikiIdentifier")
    let p ← args.getp ("project")
    let pa ← args.getp ("path")
    .ok (some ⟨"getWikiPageContent", [w, p, pa]⟩)
  else if name = "list_team_iterations" then do
    let p ← args.getp ("project")
    let t ← args.getp ("team")
    .ok (some ⟨"getTeamIterations", [p, t]⟩)
  else if name = "list_test_plans" then do
    let p ← args.getp ("project")
    .ok (some ⟨"getTestPlans", [p]⟩)
  else if name = "list_project_teams" then do
    let p ← args.getp ("project")
    let m ← args.getp ("mine")
    let t ← args.getp ("top")
    let s ← args.getp ("skip")
    .ok (some ⟨"getTeams", [p, m, t, s]⟩)
  else if name = "get_identity_ids" then do
    let s ← args.getp ("searchFilter")
    .ok (some ⟨"searchIdentities", [s]⟩)
  else if name = "get_current_user" then .ok (some ⟨"getCurrentUser", []⟩)
  else if name = "list_work_item_types" then do
    let p ← args.getp ("project")
    .ok (some ⟨"getWorkItemTypes", [p]⟩)
  else if name = "list_iterations" then do
    let p ← args.getp ("project")
    .ok (some ⟨"getIterations", [p]⟩)
  else if name = "list_build_definitions" then do
    let p ← args.getp ("project")
    .ok (some ⟨"getBuildDefinitions", [p]⟩)
  else if name = "list_release_definitions" then do
    let p ← args.getp ("project")
    .ok (some ⟨"getReleaseDefinitions", [p]⟩)
  else if name = "list_queries" then do
    let p ← args.getp ("project")
    .ok (some ⟨"getQueries", [p]⟩)
  else if name = "get_work_item_revisions" then do
    let i ← args.getp ("id")
    let p ← args.getp ("project")
    .ok (some ⟨"getWorkItemRevisions", [i, p]⟩)
  else if name = "get_work_item_links" then do
    let i ← args.getp ("id")
    let p ← args.getp ("project")
    .ok (some ⟨"getWorkItemLinks", [i, p]⟩)
  else if name = "create_pull_request" then do
    let r ← args.getp ("repositoryId")
    let sb ← args.getp ("sourceBranch")
    let tb ← args.getp ("targetBranch")
    let t ← args.getp ("title")
    let d ← args.getp ("description")
    let p ← args.getp ("project")
    .ok (some ⟨"createPullRequest", [r, sb, tb, t, d, p]⟩)
  else if name = "list_commits" then do
    let r ← args.getp ("repositoryId")
    let p ← args.getp ("project")
    let t ← args.getp ("top")
    .ok (some ⟨"getCommits", [r, p, t]⟩)
  else if name = "get_file_content" then do
    let r ← args.getp ("repositoryId")
    let pa ← args.getp ("path")
    let p ← args.getp ("project")
    .ok (some ⟨"getFileContent", [r, pa, p]⟩)
  else if name = "list_areas" then do
    let p ← args.getp ("project")
    .ok (some ⟨"getAreas", [p]⟩)
  else if name = "list_iteration_capacities" then do
    let p ← args.getp ("project")
    let t ← args.getp ("team")
    let i ← args.getp ("iterationId")
    .ok (some ⟨"getIterationCapacities", [p, t, i]⟩)
  else if name = "list_work_item_categories" then do
    let p ← args.getp ("project")
    .ok (some ⟨"getWorkItemCategories", [p]⟩)
  else if name = "list_dashboards" then do
    let p ← args.getp ("project")
    .ok (some ⟨"getDashboards", [p]⟩)
  else if name = "list_pipelines" then do
    let p ← args.getp ("project")
    .ok (some ⟨"getPipelines", [p]⟩)
  else if name = "list_test_suites" then do
    let p ← args.getp ("project")
    let i ← args.getp ("planId")
    .ok (some ⟨"getTestSuites", [p, i]⟩)
  else if name = "list_variable_groups" then do
    let p ← args.getp ("project")
    .ok (some ⟨"getVariableGroups", [p]⟩)
  else if name = "list_service_endpoints" then do
    let p ← args.getp ("project")
    .ok (some ⟨"getServiceEndpoints", [p]⟩)
  else if name = "list_tags" then do
    let p ← args.getp ("project")
    .ok (some ⟨"getTags", [p]⟩)
  else if name = "list_team_members" then do
    let p ← args.getp ("project")
    let t ← args.getp ("team")
    .ok (some ⟨"getTeamMembers", [p, t]⟩)
  else if name = "list_boards" then do
    let p ← args.getp ("project")
    let t ← args.getp ("team")
    .ok (some ⟨"getBoards", [p, t]⟩)
  else if name = "list_board_columns" then do
    let p ← args.getp ("project")
    let t ← args.getp ("team")
    let b ← args.getp ("board")
    .ok (some ⟨"getBoardColumns", [p, t, b]⟩)
  else if name = "list_board_rows" then do
    let p ← args.getp ("project")
    let t ← args.getp ("team")
    let b ← args.getp ("board")
    .ok (some ⟨"getBoardRows", [p, t, b]⟩)
  else if name = "list_work_item_states" then do
    let p ← args.getp ("project")
    let w ← args.getp ("workItemType")
    .ok (some ⟨"getWorkItemStates", [p, w]⟩)
  else if name = "list_work_item_fields" then do
    let p ← args.getp ("project")
    .ok (some ⟨"getWorkItemFields", [p]⟩)
  else if name = "list_work_item_updates" then do
    let i ← args.getp ("id")
    let p ← args.getp ("project")
    .ok (some ⟨"getWorkItemUpdates", [i, p]⟩)
  else if name = "list_work_item_attachments" then do
    let i ← args.getp ("id")
    let p ← args.getp ("project")
    .ok (some ⟨"getWorkItemAttachments", [i, p]⟩)
  else if name = "list_work_item_comments" then do
    let i ← args.getp ("id")
    let p ← args.getp ("project")
    .ok (some ⟨"getWorkItemComments", [i, p]⟩)
  else if name = "list_work_item_relations" then do
    let i ← args.getp ("id")
    let p ← args.getp ("project")
    .ok (some ⟨"getWorkItemRelations", [i, p]⟩)
  else if name = "list_work_item_query_results" then do
    let p ← args.getp ("project")
    let q ← args.getp ("queryId")
    .ok (some ⟨"getQueryResults", [p, q]⟩)
  else .ok none

/-- The result-formatting if/else chain of `POST /api/tools/:name`
(tools without a branch fall through to `JSON.stringify(rawResult, null, 2)`). -/
def httpFormat (name : String) (payload : Json) (args : Json) : Except String String :=
  if name = "list_projects" then
    fmtList payload ("No projects found.") ("Projects")
      ("| ID | Name | Description | URL |\n|----|------|-------------|-----|") projectsRow
  else if name = "query_work_items" ∨ name = "get_work_items_by_ids" then
    fmtList payload ("No work items found.") ("Work Items")
      ("| ID | Title | State | Assigned To | Type |\n|----|-------|-------|-------------|------|")
      workItemRow
  else if name = "get_builds" then
    fmtList payload ("No builds found.") ("Builds")
      ("| ID | Build Number | Status | Result | Queue Time | Branch |\n|----|--------------|--------|--------|------------|--------|")
      buildsRow
  else if name = "get_releases" then
    fmtList payload ("No releases found.") ("Releases")
      ("| ID | Name | Status | Created | Modified |\n|----|------|--------|---------|----------|")
      releasesRow
  else if name = "create_work_item" then createWiBlockG payload args
  else if name = "update_work_item" then updateBlockHttp payload args
  else if name = "assign_work_item" then assignBlockG payload args
  else if name = "list_repositories" then
    fmtList payload ("No repositories found.") ("Repositories")
      ("| ID | Name | Status | Fork | URL |\n|----|------|--------|------|-----|") reposRow
  else if name = "list_branches" then
    fmtList payload ("No branches found.") ("Branches")
      ("| Name | Commit | Creator |\n|------|--------|---------|") branchesRowG
  else if name = "list_pull_requests" then
    fmtList payload ("No pull requests found.") ("Pull Requests")
      ("| ID | Title | Status | Created By | Created |\n|----|-------|--------|------------|---------|")
      prsRowG
  else if name = "get_pull_request" then prDetailG payload
  else if name = "search_code" then
    fmtList payload ("No code search results found.") ("Code Search Results")
      ("| Project | Repository | Path | Matches |\n|---------|------------|------|---------|")
      codeRow
  else if name = "search_work_items" then
    fmtList payload ("No work item search results found.") ("Work Item Search Results")
      ("| ID | Title | State | Type |\n|----|-------|-------|------|") wiSearchRow
  else if name = "list_wikis" then
    fmtList payload ("No wikis found.") ("Wikis")
      ("| ID | Name | Type | Project ID |\n|----|------|------|------------|") wikisRow
  else if name = "get_wiki_page" then wikiPageBlockG payload args
  else if name = "list_team_iterations" then
    fmtList payload ("No iterations found for this team.") ("Iterations")
      ("| ID | Name | Path | Dates |\n|----|------|------|-------|") iterRowG
  else if name = "list_test_plans" then
    fmtList payload ("No test plans found.") ("Test Plans")
      ("| ID | Name | Description | Area Path | Iteration |\n|----|------|-------------|-----------|-----------|")
      testPlansRow
  else if name = "list_project_teams" then
    fmtList payload ("No teams found.") ("Teams")
      ("| ID | Name | Description | Project |\n|----|------|-------------|---------|") teamsRow
  else if name = "get_identity_ids" then
    fmtListT payload ("No identities found.") ("Identities")
      ("| Local ID | Display Name | Unique Name | Subject Descriptor |\n|----------|--------------|-------------|-------------------|")
      identitiesRow
  else if name = "get_current_user" then currentUserBlock payload
  else if name = "list_work_item_types" then
    fmtList payload ("No work item types found.") ("Work Item Types")
      ("| Name | Reference Name | Description |\n|------|----------------|-------------|") typesRow
  else if name = "list_iterations" then
    fmtList payload ("No iterations found.") ("Iterations")
      ("| ID | Name | Path | Dates |\n|----|------|------|-------|") iterRowG
  else if name = "list_build_definitions" then
    fmtList payload ("No build definitions found.") ("Build Definitions")
      ("| ID | Name | Path | Queue Status |\n|----|------|------|-------------|") buildDefsRow
  else if name = "list_release_definitions" then
    fmtList payload ("No release definitions found.") ("Release Definitions")
      ("| ID | Name | Path | Release Name Format |\n|----|------|------|-------------------|")
      releaseDefsRow
  else if name = "list_queries" then
    fmtList payload ("No queries found.") ("Queries")
      ("| ID | Name | Path | Type |\n|----|------|------|------|") queriesRow
  else if name = "get_work_item_revisions" then
    fmtList payload ("No revisions found for this work item.") ("Work Item Revisions")
      ("| Rev | Changed Date | Changed By | State |\n|-----|--------------|------------|-------|")
      revisionsRow
  else if name = "get_work_item_links" then
    fmtList payload ("No links found for this work item.") ("Work Item Links")
      ("| Relation | URL | Name |\n|----------|-----|------|") linksRow
  else if name = "create_pull_request" then createPrBlockG payload args
  else if name = "list_commits" then
    fmtList payload ("No commits found.") ("Commits")
      ("| Commit | Author | Message | Date |\n|--------|--------|---------|------|") commitsRow
  else if name = "get_file_content" then fileBlockG payload args
  else .ok (jsonStringify payload (""))

/-- The result-formatting if/else chain of the chat endpoint
(`POST /api/chat`), applied after the model-selected function call. -/
def chatFormat (name : String) (payload : Json) (args : Json) : Except String String :=
  if name = "list_projects" then
    fmtList payload ("No projects found.") ("Projects")
      ("| ID | Name | Description | URL |\n|----|------|-------------|-----|") projectsRow
  else if name = "query_work_items" ∨ name = "get_work_items_by_ids" then
    fmtList payload ("No work items found.") ("Work Items")
      ("| ID | Title | State | Assigned To | Type |\n|----|-------|-------|-------------|------|")
      workItemRow
  else if name = "get_builds" then
    fmtList payload ("No builds found.") ("Builds")
      ("| ID | Build Number | Status | Result | Queue Time | Branch |\n|----|--------------|--------|--------|------------|--------|")
      buildsRow
  else if name = "get_releases" then
    fmtList payload ("No releases found.") ("Releases")
      ("| ID | Name | Status | Created | Modified |\n|----|------|--------|---------|----------|")
      releasesRow
  else if name = "create_work_item" then createWiBlockG payload args
  else if name = "update_work_item" then updateBlockChat payload args
  else if name = "assign_work_item" then assignBlockG payload args
  else if name = "list_repositories" then
    fmtList payload ("No repositories found.") ("Repositories")
      ("| ID | Name | Status | Fork | URL |\n|----|------|--------|------|-----|") reposRow
  else if name = "list_branches" then
    fmtList payload ("No branches found.") ("Branches")
      ("| Name | Commit | Creator |\n|------|--------|---------|") branchesRowG
  else if name = "list_pull_requests" then
    fmtList payload ("No pull requests found.") ("Pull Requests")
      ("| ID | Title | Status | Created By | Created |\n|----|-------|--------|------------|---------|")
      prsRowG
  else if name = "get_pull_request" then prDetailG payload
  else if name = "search_code" then
    fmtList payload ("No code search results found.") ("Code Search Results")
      ("| Project | Repository | Path | Matches |\n|---------|------------|------|---------|")
      codeRow
  else if name = "search_work_items" then
    fmtList payload ("No work item search results found.") ("Work Item Search Results")
      ("| ID | Title | State | Type |\n|----|-------|-------|------|") wiSearchRow
  else if name = "list_wikis" then
    fmtList payload ("No wikis found.") ("Wikis")
      ("| ID | Name | Type | Project ID |\n|----|------|------|------------|") wikisRow
  else if name = "get_wiki_page" then wikiPageBlockG payload args
  else if name = "list_team_iterations" then
    fmtList payload ("No iterations found for this team.") ("Iterations")
      ("| ID | Name | Path | Dates |\n|----|------|------|-------|") iterRowG
  else if name = "list_test_plans" then
    fmtList payload ("No test plans found.") ("Test Plans")
      ("| ID | Name | Description | Area Path | Iteration |\n|----|------|-------------|-----------|-----------|")
      testPlansRow
  else if name = "list_project_teams" then
    fmtList payload ("No teams found.") ("Teams")
      ("| ID | Name | Description | Project |\n|----|------|-------------|---------|") teamsRow
  else if name = "get_identity_ids" then
    fmtListT payload ("No identities found.") ("Identities")
      ("| Local ID | Display Name | Unique Name | Subject Descriptor |\n|----------|--------------|-------------|-------------------|")
      identitiesRow
  else if name = "get_current_user" then currentUserBlock payload
  else if name = "list_work_item_types" then
    fmtList payload ("No work item types found.") ("Work Item Types")
      ("| Name | Reference Name | Description |\n|------|----------------|-------------|") typesRow
  else if name = "list_iterations" then
    fmtList payload ("No iterations found.") ("Iterations")
      ("| ID | Name | Path | Dates |\n|----|------|------|-------|") iterRowG
  else if name = "list_build_definitions" then
    fmtList payload ("No build definitions found.") ("Build Definitions")
      ("| ID | Name | Path | Queue Status |\n|----|------|------|-------------|") buildDefsRow
  else if name = "list_release_definitions" then
    fmtList payload ("No release definitions found.") ("Release Definitions")
      ("| ID | Name | Path | Release Name Format |\n|----|------|------|-------------------|")
      releaseDefsRow
  else if name = "list_queries" then
    fmtList payload ("No queries found.") ("Queries")
      ("| ID | Name | Path | Type |\n|----|------|------|------|") queriesRow
  else if name = "get_work_item_revisions" then
    fmtList payload ("No revisions found for this work item.") ("Work Item Revisions")
      ("| Rev | Changed Date | Changed By | State |\n|-----|--------------|------------|-------|")
      revisionsRow
  else if name = "get_work_item_links" then
    fmtList payload ("No links found for this work item.") ("Work Item Links")
      ("| Relation | URL | Name |\n|----------|-----|------|") linksRow
  else if name = "create_pull_request" then createPrBlockG payload args
  else if name = "list_commits" then
    fmtList payload ("No commits found.") ("Commits")
      ("| Commit | Author | Message | Date |\n|--------|--------|---------|------|") commitsRow
  else if name = "get_file_content" then fileBlockG payload args
  else .ok (jsonStringify payload (""))

/-- The HTTP endpoint's response: status code and (error or result) text. -/
structure HttpResult where
  status : Nat
  body : String
deriving DecidableEq

/-- Body of the HTTP endpoint's `try` block: dispatch, backend call,
format; the `default` switch case returns a 400 without throwing. -/
def httpExec (name : String) (args : Json) (oracle : BackendOracle) :
    Except String HttpResult := do
  let optCall ← httpDispatch name args
  match optCall with
  | none => pure ⟨400, "Unsupported tool"⟩
  | some call => do
    let payload ← oracle call
    let t ← httpFormat name payload args
    pure ⟨200, t⟩

/-- The whole `POST /api/tools/:name` handler: registry lookup (404 for
unknown names), then the `try`/`catch` (500 on any thrown error). -/
def httpHandler (name : String) (args : Json) (oracle : BackendOracle) : HttpResult :=
  if name ∈ toolNames then
    match httpExec name args oracle with
    | .ok r => r
    | .error m => ⟨500, m⟩
  else ⟨404, "Tool not found"⟩

/-! Backend Client (`azure-devops-client.ts`): connection context,
optional-project fallback, request URLs / bodies, the two-step query
protocol, and the per-method 404 handling. -/

/-- Connection context resolved once at client construction. -/
structure ClientCtx where
  organization : String
  project : String

/-- `const proj = project || this.project;` for a `string | undefined`
parameter: `undefined` and the empty string both fall back. -/
def resolveProject (ctx : ClientCtx) (project : Option String) : String :=
  match project with
  | some p => if p = "" then ctx.project else p
  | none => ctx.project

def hexDigitChar (n : Nat) : Char :=
  if n < 10 then Char.ofNat (48 + n) else Char.ofNat (55 + n)

def byteHex (b : Nat) : String :=
  "%" ++ String.singleton (hexDigitChar (b / 16)) ++ String.singleton (hexDigitChar (b % 16))

def uriUnreserved (c : Char) : Bool :=
  (65 ≤ c.toNat && c.toNat ≤ 90) || (97 ≤ c.toNat && c.toNat ≤ 122)
    || (48 ≤ c.toNat && c.toNat ≤ 57)
    || c = '-' || c = '_' || c = '.' || c = '!' || c = '~' || c = '*' || c = '\''
    || c = '(' || c = ')'

/-- Model of JavaScript `encodeURIComponent` (percent-encoding of the
UTF-8 bytes of every character outside the unreserved set). -/
def encodeURIComponent (s : String) : String :=
  String.join (s.toList.map (fun c =>
    if uriUnreserved c then String.singleton c
    else String.join ((String.utf8EncodeChar c).map (fun b => byteHex b.toNat))))

def getRepositoriesUrl (ctx : ClientCtx) (project : Option String) : String :=
  "/" ++ resolveProject ctx project ++ "/_apis/git/repositories?api-version=7.1"

def getBranchesUrl (ctx : ClientCtx) (repositoryId : String) (project : Option String) : String :=
  "/" ++ resolveProject ctx project ++ "/_apis/git/repositories/" ++ repositoryId
    ++ "/refs?filter=heads&api-version=7.1"

def getPullRequestsUrl (ctx : ClientCtx) (repositoryId : Option String)
    (project : Option String) (top : Option Int) (status : Option String) : String :=
  let base := "/" ++ resolveProject ctx project ++ "/_apis/git/pullrequests?api-version=7.1&$top="
    ++ toString (top.getD 100) ++ "&searchCriteria.status=" ++ (status.getD ("active"))
  match repositoryId with
  | some r => if r = "" then base else base ++ "&searchCriteria.repositoryId=" ++ r
  | none => base

def getPullRequestByIdUrl (ctx : ClientCtx) (repositoryId : String) (pullRequestId : Int)
    (project : Option String) : String :=
  "/" ++ resolveProject ctx project ++ "/_apis/git/repositories/" ++ repositoryId
    ++ "/pullrequests/" ++ toString pullRequestId ++ "?api-version=7.1"

/-- The request body of `searchCode` (full filters object; an empty
filters object is omitted). -/
def searchCodeBody (ctx : ClientCtx) (searchText : String) (project : Option String)
    (repository : Option String) (top : Option Int) : Json :=
  let proj := resolveProject ctx project
  let projFilters : List (String × Json) :=
    if proj = "" then [] else [("Project", Json.arr [Json.str proj])]
  let repoFilters : List (String × Json) :=
    match repository with
    | some r => if r = "" then [] else [("Repository", Json.arr [Json.str r])]
    | none => []
  let filters := projFilters ++ repoFilters
  Json.obj ([("searchText", Json.str searchText), ("$top", Json.num (top.getD 5))]
    ++ (if filters.isEmpty then [] else [("filters", Json.obj filters)]))

def searchWorkItemsBody (ctx : ClientCtx) (searchText : String) (project : Option String)
    (top : Option Int) : Json :=
  let proj := resolveProject ctx project
  Json.obj ([("searchText", Json.str searchText), ("$top", Json.num (top.getD 10))]
    ++ (if proj = "" then []
        else [("filters", Json.obj [("System.TeamProject", Json.arr [Json.str proj])])]))

def getWikisUrl (ctx : ClientCtx) (project : Option String) : String :=
  "/" ++ resolveProject ctx project ++ "/_apis/wiki/wikis?api-version=7.1"

def getWikiPageContentUrl (ctx : ClientCtx) (wikiIdentifier : String) (project : Option String)
    (path : Option String) : String :=
  "/" ++ resolveProject ctx project ++ "/_apis/wiki/wikis/" ++ wikiIdentifier ++ "/pages?path="
    ++ encodeURIComponent (path.getD ("/")) ++ "&includeContent=true&api-version=7.1"

def getWorkItemTypesUrl (ctx : ClientCtx) (project : Option String) : String :=
  "/" ++ resolveProject ctx project ++ "/_apis/wit/workitemtypes?api-version=7.1"

def getIterationsUrl (ctx : ClientCtx) (project : Option String) : String :=
  "/" ++ resolveProject ctx project
    ++ "/_apis/work/classificationnodes?structureGroup=Iterations&api-version=7.1"

def getBuildDefinitionsUrl (ctx : ClientCtx) (project : Option String) : String :=
  "/" ++ resolveProject ctx project ++ "/_apis/build/definitions?api-version=7.1"

def getReleaseDefinitionsUrl (ctx : ClientCtx) (project : Option String) : String :=
  "/" ++ resolveProject ctx project ++ "/_apis/release/definitions?api-version=7.1"

def getQueriesUrl (ctx : ClientCtx) (project : Option String) : String :=
  "/" ++ resolveProject ctx project ++ "/_apis/wit/queries?api-version=7.1"

def getWorkItemRevisionsUrl (ctx : ClientCtx) (id : Int) (project : Option String) : String :=
  "/" ++ resolveProject ctx project ++ "/_apis/wit/workitems/" ++ toString id
    ++ "/revisions?api-version=7.1"

def getWorkItemLinksUrl (ctx : ClientCtx) (id : Int) (project : Option String) : String :=
  "/" ++ resolveProject ctx project ++ "/_apis/wit/workitems/" ++ toString id
    ++ "?$expand=relations&api-version=7.1"

def createPullRequestUrl (ctx : ClientCtx) (repositoryId : String)
    (project : Option String) : String :=
  "/" ++ resolveProject ctx project ++ "/_apis/git/repositories/" ++ repositoryId
    ++ "/pullrequests?api-version=7.1"

def getCommitsUrl (ctx : ClientCtx) (repositoryId : String) (project : Option String)
    (top : Option Int) : String :=
  "/" ++ resolveProject ctx project ++ "/_apis/git/repositories/" ++ repositoryId
    ++ "/commits?api-version=7.1&$top=" ++ toString (top.getD 10)

def getFileContentUrl (ctx : ClientCtx) (repositoryId : String) (path : String)
    (project : Option String) : String :=
  "/" ++ resolveProject ctx project ++ "/_apis/git/repositories/" ++ repositoryId
    ++ "/items?path=" ++ encodeURIComponent path ++ "&api-version=7.1"

def getAreasUrl (ctx : ClientCtx) (project : Option String) : String :=
  "/" ++ resolveProject ctx project
    ++ "/_apis/wit/classificationnodes?structureGroup=Areas&api-version=7.1"

def getWorkItemCategoriesUrl (ctx : ClientCtx) (project : Option String) : String :=
  "/" ++ resolveProject ctx project ++ "/_apis/wit/workitemtypecategories?api-version=7.1"

def getDashboardsUrl (ctx : ClientCtx) (project : Option String) : String :=
  "/" ++ resolveProject ctx project ++ "/_apis/dashboard/dashboards?api-version=7.1"

def getPipelinesUrl (ctx : ClientCtx) (project : Option String) : String :=
  "/" ++ resolveProject ctx project ++ "/_apis/pipelines?api-version=7.1"

def getVariableGroupsUrl (ctx : ClientCtx) (project : Option String) : String :=
  "/" ++ resolveProject ctx project ++ "/_apis/distributedtask/variablegroups?api-version=7.1"

def getServiceEndpointsUrl (ctx : ClientCtx) (project : Option String) : String :=
  "/" ++ resolveProject ctx project ++ "/_apis/serviceendpoint/endpoints?api-version=7.1"

def getTagsUrl (ctx : ClientCtx) (project : Option String) : String :=
  let proj := resolveProject ctx project
  "/" ++ proj ++ "/_apis/tagging/scopes/" ++ proj ++ "/tags?api-version=7.1"

def getWorkItemFieldsUrl (ctx : ClientCtx) (project : Option String) : String :=
  "/" ++ resolveProject ctx project ++ "/_apis/wit/fields?api-version=7.1"

def getWorkItemUpdatesUrl (ctx : ClientCtx) (id : Int) (project : Option String) : String :=
  "/" ++ resolveProject ctx project ++ "/_apis/wit/workitems/" ++ toString id
    ++ "/updates?api-version=7.1"

def getWorkItemAttachmentsUrl (ctx : ClientCtx) (id : Int) (project : Option String) : String :=
  "/" ++ resolveProject ctx project ++ "/_apis/wit/attachments?artifactId=" ++ toString id
    ++ "&api-version=7.1"

def getWorkItemCommentsUrl (ctx : ClientCtx) (id : Int) (project : Option String) : String :=
  "/" ++ resolveProject ctx project ++ "/_apis/wit/workitems/" ++ toString id
    ++ "/comments?api-version=7.1-preview.1"

def getWorkItemRelationsUrl (ctx : ClientCtx) (id : Int) (project : Option String) : String :=
  "/" ++ resolveProject ctx project ++ "/_apis/wit/workitems/" ++ toString id
    ++ "?$expand=relations&api-version=7.1"

/-- `getBuilds` URL: uses the configured default project only; `top` has
a TypeScript default of 10 (applied only when the argument is
undefined), and `definitionId` is appended under a truthiness check. -/
def getBuildsUrl (ctx : ClientCtx) (definitionId : Option Int) (top : Option Int) : String :=
  let base := "/" ++ ctx.project ++ "/_apis/build/builds?api-version=7.1&$top="
    ++ toString (top.getD 10)
  match definitionId with
  | some d => if d = 0 then base else base ++ "&definitions=" ++ toString d
  | none => base

def getReleasesUrl (ctx : ClientCtx) (top : Option Int) : String :=
  "/" ++ ctx.project ++ "/_apis/release/releases?api-version=7.1&$top=" ++ toString (top.getD 10)

/-- Backend HTTP response as seen by a client method. -/
inductive HttpResp where
  | ok (data : Json)
  | err (status : Nat)

/-- Errors a client method can produce: an axios HTTP error carrying the
response status, or a TypeError raised while reshaping the response. -/
inductive JsErr where
  | http (status : Nat)
  | type
deriving DecidableEq

def respData : HttpResp → Except JsErr Json
  | .ok d => .ok d
  | .err s => .error (.http s)

def dataField (d : Json) (k : String) : Except JsErr Json :=
  match d.getp k with
  | .ok v => .ok v
  | .error _ => .error .type

def toJsErr {α : Type} : Except String α → Except JsErr α
  | .ok a => .ok a
  | .error _ => .error .type

/-- The `catch` block shared by the optional-feature list methods:
a 404 response becomes an empty array, anything else is rethrown. -/
def catch404 (r : Except JsErr Json) : Except JsErr Json :=
  match r with
  | .error (.http 404) => .ok (.arr [])
  | x => x

/-- `getWorkItems`: the empty-ids guard skips the request entirely; any
backend error (including 404) propagates — there is no catch. -/
def getWorkItems (ids : List Json) (resp : HttpResp) : Except JsErr Json :=
  if ids.length = 0 then .ok (.arr [])
  else do
    let d ← respData resp
    dataField d ("value")

/-- `ids.join(',')` (JavaScript `Array.prototype.join`). -/
def joinIds (ids : List Json) : String :=
  String.intercalate (",") (ids.map (fun v => if v.isNullish then "" else v.tmpl))

/-- The request URL `getWorkItems` issues when the ids list is nonempty. -/
def getWorkItemsUrl (ctx : ClientCtx) (ids : List Json) : Option String :=
  if ids.length = 0 then none
  else some ("/" ++ ctx.project ++ "/_apis/wit/workitems?ids=" ++ joinIds ids
    ++ "&api-version=7.1")

/-- The two-step `queryWorkItems` protocol, parameterised by the first
step's response and an oracle for the batch `getWorkItems` fetch.
Returns the result together with the list of batch-fetch calls that were
made (each element is the ids argument of one call). -/
def queryWorkItemsRun (firstResp : HttpResp) (batch : List Json → Except JsErr Json) :
    Except JsErr (Json × List (List Json)) := do
  let d ← respData firstResp
  let refs ← dataField d ("workItems")
  if !refs.truthy then .ok (.arr [], [])
  else do
    let z ← toJsErr refs.lenIsZero
    if z then .ok (.arr [], [])
    else do
      let ids ← toJsErr (refs.jsMap (fun wi => wi.getp ("id")))
      if ids.length = 0 then .ok (.arr [], [])
      else do
        let v ← batch ids
        .ok (v, [ids])

/-- `getTestPlans`: catches 404 as empty; the ok-path returns
`response.data.value` (without `|| []`). -/
def getTestPlans (resp : HttpResp) : Except JsErr Json :=
  catch404 (do
    let d ← respData resp
    dataField d ("value"))

/-- `getBoards`: catches 404 as empty; ok-path is `data.value || []`. -/
def getBoards (resp : HttpResp) : Except JsErr Json :=
  catch404 (do
    let d ← respData resp
    let v ← dataField d ("value")
    pure (jor v (.arr [])))

/-- `getTags`: catches 404 as empty; ok-path is `data.value || []`. -/
def getTags (resp : HttpResp) : Except JsErr Json :=
  catch404 (do
    let d ← respData resp
    let v ← dataField d ("value")
    pure (jor v (.arr [])))

/-- `getVariableGroups`: catches 404 as empty; ok-path is `data.value || []`. -/
def getVariableGroups (resp : HttpResp) : Except JsErr Json :=
  catch404 (do
    let d ← respData resp
    let v ← dataField d ("value")
    pure (jor v (.arr [])))

/-- The tool names that have a dedicated formatting branch in the HTTP
and chat endpoints (in branch order); every other tool falls through to
the pretty-printed JSON fallback there. -/
def httpChatBranchNames : List String :=
  ["list_projects", "query_work_items", "get_work_items_by_ids", "get_builds",
   "get_releases", "create_work_item", "update_work_item", "assign_work_item",
   "list_repositories", "list_branches", "list_pull_requests", "get_pull_request",
   "search_code", "search_work_items", "list_wikis", "get_wiki_page",
   "list_team_iterations", "list_test_plans", "list_project_teams", "get_identity_ids",
   "get_current_user", "list_work_item_types", "list_iterations",
   "list_build_definitions", "list_release_definitions", "list_queries",
   "get_work_item_revisions", "get_work_item_links", "create_pull_request",
   "list_commits", "get_file_content"]

/-! Statement-level helpers: a structurally recursive substring test used
to state "the block contains / does not contain a labelled line". -/

def charsPrefix : List Char → List Char → Bool
  | [], _ => true
  | _ :: _, [] => false
  | c :: cs, d :: ds => c == d && charsPrefix cs ds

def charsContains : List Char → List Char → Bool
  | [], needle => needle.isEmpty
  | h :: rest, needle => charsPrefix needle (h :: rest) || charsContains rest needle

/-- Does `s` contain `pat` as a substring? -/
def strContains (s pat : String) : Bool := charsContains s.toList pat.toList

/-! Helper lemmas: one defining equation of `mcpDispatch` per tool name,
and the two membership lemmas about the `default` case. -/

theorem mdEq_list_projects (args : Json) :
    mcpDispatch ("list_projects") args = .ok ⟨"getProjects", []⟩ := rfl

theorem mdEq_query_work_items (args : Json) :
    mcpDispatch ("query_work_items") args =
      (if !(jarg args ("wiql")).truthy then .error ("wiql argument is required")
       else .ok ⟨"queryWorkItems", [jarg args ("wiql")]⟩) := rfl

theorem mdEq_get_work_items_by_ids (args : Json) :
    mcpDispatch ("get_work_items_by_ids") args =
      (if !(jarg args ("ids")).truthy || !(jarg args ("ids")).isArr then
        .error ("ids argument must be an array of numbers")
       else .ok ⟨"getWorkItems", [jarg args ("ids")]⟩) := rfl

theorem mdEq_get_builds (args : Json) :
    mcpDispatch ("get_builds") args =
      .ok ⟨"getBuilds", [jarg args ("definitionId"), jor (jarg args ("top")) (.num 10)]⟩ := rfl

theorem mdEq_get_releases (args : Json) :
    mcpDispatch ("get_releases") args =
      .ok ⟨"getReleases", [jor (jarg args ("top")) (.num 10)]⟩ := rfl

theorem mdEq_create_work_item (args : Json) :
    mcpDispatch ("create_work_item") args =
      (if !(jarg args ("workItemType")).truthy || !(jarg args ("title")).truthy then
        .error ("workItemType and title are required")
       else .ok ⟨"createWorkItem",
        [jarg args ("workItemType"), jarg args ("title"), jarg args ("description"),
         jarg args ("additionalFields")]⟩) := rfl

theorem mdEq_update_work_item (args : Json) :
    mcpDispatch ("update_work_item") args =
      (if !(jarg args ("id")).truthy || !(jarg args ("fields")).truthy then
        .error ("id and fields are required")
       else .ok ⟨"updateWorkItem",
        [jarg args ("id"), jarg args ("fields"), jarg args ("comment")]⟩) := rfl

theorem mdEq_assign_work_item (args : Json) :
    mcpDispatch ("assign_work_item") args =
      (if !(jarg args ("id")).truthy || !(jarg args ("assignee")).truthy then
        .error ("id and assignee are required")
       else .ok ⟨"assignWorkItem",
        [jarg args ("id"), jarg args ("assignee"), jarg args ("comment")]⟩) := rfl

theorem mdEq_list_repositories (args : Json) :
    mcpDispatch ("list_repositories") args =
      .ok ⟨"getRepositories", [jarg args ("project")]⟩ := rfl

theorem mdEq_list_branches (args : Json) :
    mcpDispatch ("list_branches") args =
      .ok ⟨"getBranches", [jarg args ("repositoryId"), jarg args ("project")]⟩ := rfl

theorem mdEq_list_pull_requests (args : Json) :
    mcpDispatch ("list_pull_requests") args =
      .ok ⟨"getPullRequests",
        [jarg args ("repositoryId"), jarg args ("project"),
         jor (jarg args ("top")) (.num 100), jor (jarg args ("status")) (.str ("active"))]⟩ := rfl

theorem mdEq_get_pull_request (args : Json) :
    mcpDispatch ("get_pull_request") args =
      .ok ⟨"getPullRequestById",
        [jarg args ("repositoryId"), jarg args ("pullRequestId"), jarg args ("project")]⟩ := rfl

theorem mdEq_search_code (args : Json) :
    mcpDispatch ("search_code") args =
      .ok ⟨"searchCode",
        [jarg args ("searchText"), jarg args ("project"), jarg args ("repository"),
         jor (jarg args ("top")) (.num 5)]⟩ := rfl

theorem mdEq_search_work_items (args : Json) :
    mcpDispatch ("search_work_items") args =
      .ok ⟨"searchWorkItems",
        [jarg args ("searchText"), jarg args ("project"), jor (jarg args ("top")) (.num 10)]⟩ := rfl

theorem mdEq_list_wikis (args : Json) :
    mcpDispatch ("list_wikis") args = .ok ⟨"getWikis", [jarg args ("project")]⟩ := rfl

theorem mdEq_get_wiki_page (args : Json) :
    mcpDispatch ("get_wiki_page") args =
      .ok ⟨"getWikiPageContent",
        [jarg args ("wikiIdentifier"), jarg args ("project"),
         jor (jarg args ("path")) (.str ("/"))]⟩ := rfl

theorem mdEq_list_team_iterations (args : Json) :
    mcpDispatch ("list_team_iterations") args =
      .ok ⟨"getTeamIterations", [jarg args ("project"), jarg args ("team")]⟩ := rfl

theorem mdEq_list_test_plans (args : Json) :
    mcpDispatch ("list_test_plans") args =
      .ok ⟨"getTestPlans", [jarg args ("project")]⟩ := rfl

theorem mdEq_list_project_teams (args : Json) :
    mcpDispatch ("list_project_teams") args =
      .ok ⟨"getTeams",
        [jarg args ("project"), jarg args ("mine"), jor (jarg args ("top")) (.num 100),
         jor (jarg args ("skip")) (.num 0)]⟩ := rfl

theorem mdEq_get_identity_ids (args : Json) :
    mcpDispatch ("get_identity_ids") args =
      (if !(jarg args ("searchFilter")).truthy then .error ("searchFilter argument is required")
       else .ok ⟨"searchIdentities", [jarg args ("searchFilter")]⟩) := rfl

theorem mdEq_get_current_user (args : Json) :
    mcpDispatch ("get_current_user") args = .ok ⟨"getCurrentUser", []⟩ := rfl

theorem mdEq_list_work_item_types (args : Json) :
    mcpDispatch ("list_work_item_types") args =
      .ok ⟨"getWorkItemTypes", [jarg args ("project")]⟩ := rfl

theorem mdEq_list_iterations (args : Json) :
    mcpDispatch ("list_iterations") args = .ok ⟨"getIterations", [jarg args ("project")]⟩ := rfl

theorem mdEq_list_build_definitions (args : Json) :
    mcpDispatch ("list_build_definitions") args =
      .ok ⟨"getBuildDefinitions", [jarg args ("project")]⟩ := rfl

theorem mdEq_list_release_definitions (args : Json) :
    mcpDispatch ("list_release_definitions") args =
      .ok ⟨"getReleaseDefinitions", [jarg args ("project")]⟩ := rfl

theorem mdEq_list_queries (args : Json) :
    mcpDispatch ("list_queries") args = .ok ⟨"getQueries", [jarg args ("project")]⟩ := rfl

theorem mdEq_get_work_item_revisions (args : Json) :
    mcpDispatch ("get_work_item_revisions") args =
      (if !(jarg args ("id")).truthy then .error ("id argument is required")
       else .ok ⟨"getWorkItemRevisions", [jarg args ("id"), jarg args ("project")]⟩) := rfl

theorem mdEq_get_work_item_links (args : Json) :
    mcpDispatch ("get_work_item_links") args =
      (if !(jarg args ("id")).truthy then .error ("id argument is required")
       else .ok ⟨"getWorkItemLinks", [jarg args ("id"), jarg args ("project")]⟩) := rfl

theorem mdEq_create_pull_request (args : Json) :
    mcpDispatch ("create_pull_request") args =
      (if !(jarg args ("repositoryId")).truthy || !(jarg args ("sourceBranch")).truthy
          || !(jarg args ("targetBranch")).truthy || !(jarg args ("title")).truthy then
        .error ("repositoryId, sourceBranch, targetBranch, and title are required")
       else .ok ⟨"createPullRequest",
        [jarg args ("repositoryId"), jarg args ("sourceBranch"), jarg args ("targetBranch"),
         jarg args ("title"), jarg args ("description"), jarg args ("project")]⟩) := rfl

theorem mdEq_list_commits (args : Json) :
    mcpDispatch ("list_commits") args =
      (if !(jarg args ("repositoryId")).truthy then .error ("repositoryId argument is required")
       else .ok ⟨"getCommits",
        [jarg args ("repositoryId"), jarg args ("project"), jor (jarg args ("top")) (.num 10)]⟩) := rfl

theorem mdEq_get_file_content (args : Json) :
    mcpDispatch ("get_file_content") args =
      (if !(jarg args ("repositoryId")).truthy || !(jarg args ("path")).truthy then
        .error ("repositoryId and path are required")
       else .ok ⟨"getFileContent",
        [jarg args ("repositoryId"), jarg args ("path"), jarg args ("project")]⟩) := rfl

theorem mdEq_list_areas (args : Json) :
    mcpDispatch ("list_areas") args = .ok ⟨"getAreas", [jarg args ("project")]⟩ := rfl

theorem mdEq_list_iteration_capacities (args : Json) :
    mcpDispatch ("list_iteration_capacities") args =
      (if !(jarg args ("project")).truthy || !(jarg args ("team")).truthy
          || !(jarg args ("iterationId")).truthy then
        .error ("project, team, and iterationId are required")
       else .ok ⟨"getIterationCapacities",
        [jarg args ("project"), jarg args ("team"), jarg args ("iterationId")]⟩) := rfl

theorem mdEq_list_work_item_categories (args : Json) :
    mcpDispatch ("list_work_item_categories") args =
      .ok ⟨"getWorkItemCategories", [jarg args ("project")]⟩ := rfl

theorem mdEq_list_dashboards (args : Json) :
    mcpDispatch ("list_dashboards") args = .ok ⟨"getDashboards", [jarg args ("project")]⟩ := rfl

theorem mdEq_list_pipelines (args : Json) :
    mcpDispatch ("list_pipelines") args = .ok ⟨"getPipelines", [jarg args ("project")]⟩ := rfl

theorem mdEq_list_test_suites (args : Json) :
    mcpDispatch ("list_test_suites") args =
      (if !(jarg args ("project")).truthy || !(jarg args ("planId")).truthy then
        .error ("project and planId are required")
       else .ok ⟨"getTestSuites", [jarg args ("project"), jarg args ("planId")]⟩) := rfl

theorem mdEq_list_variable_groups (args : Json) :
    mcpDispatch ("list_variable_groups") args =
      .ok ⟨"getVariableGroups", [jarg args ("project")]⟩ := rfl

theorem mdEq_list_service_endpoints (args : Json) :
    mcpDispatch ("list_service_endpoints") args =
      .ok ⟨"getServiceEndpoints", [jarg args ("project")]⟩ := rfl

theorem mdEq_list_tags (args : Json) :
    mcpDispatch ("list_tags") args = .ok ⟨"getTags", [jarg args ("project")]⟩ := rfl

theorem mdEq_list_team_members (args : Json) :
    mcpDispatch ("list_team_members") args =
      (if !(jarg args ("project")).truthy || !(jarg args ("team")).truthy then
        .error ("project and team are required")
       else .ok ⟨"getTeamMembers", [jarg args ("project"), jarg args ("team")]⟩) := rfl

theorem mdEq_list_boards (args : Json) :
    mcpDispatch ("list_boards") args =
      (if !(jarg args ("project")).truthy || !(jarg args ("team")).truthy then
        .error ("project and team are required")
       else .ok ⟨"getBoards", [jarg args ("project"), jarg args ("team")]⟩) := rfl

theorem mdEq_list_board_columns (args : Json) :
    mcpDispatch ("list_board_columns") args =
      (if !(jarg args ("project")).truthy || !(jarg args ("team")).truthy
          || !(jarg args ("board")).truthy then
        .error ("project, team, and board are required")
       else .ok ⟨"getBoardColumns",
        [jarg args ("project"), jarg args ("team"), jarg args ("board")]⟩) := rfl

theorem mdEq_list_board_rows (args : Json) :
    mcpDispatch ("list_board_rows") args =
      (if !(jarg args ("project")).truthy || !(jarg args ("team")).truthy
          || !(jarg args ("board")).truthy then
        .error ("project, team, and board are required")
       else .ok ⟨"getBoardRows",
        [jarg args ("project"), jarg args ("team"), jarg args ("board")]⟩) := rfl

theorem mdEq_list_work_item_states (args : Json) :
    mcpDispatch ("list_work_item_states") args =
      (if !(jarg args ("project")).truthy || !(jarg args ("workItemType")).truthy then
        .error ("project and workItemType are required")
       else .ok ⟨"getWorkItemStates", [jarg args ("project"), jarg args ("workItemType")]⟩) := rfl

theorem mdEq_list_work_item_fields (args : Json) :
    mcpDispatch ("list_work_item_fields") args =
      .ok ⟨"getWorkItemFields", [jarg args ("project")]⟩ := rfl

theorem mdEq_list_work_item_updates (args : Json) :
    mcpDispatch ("list_work_item_updates") args =
      (if !(jarg args ("id")).truthy then .error ("id is required")
       else .ok ⟨"getWorkItemUpdates", [jarg args ("id"), jarg args ("project")]⟩) := rfl

theorem mdEq_list_work_item_attachments (args : Json) :
    mcpDispatch ("list_work_item_attachments") args =
      (if !(jarg args ("id")).truthy then .error ("id is required")
       else .ok ⟨"getWorkItemAttachments", [jarg args ("id"), jarg args ("project")]⟩) := rfl

theorem mdEq_list_work_item_comments (args : Json) :
    mcpDispatch ("list_work_item_comments") args =
      (if !(jarg args ("id")).truthy then .error ("id is required")
       else .ok ⟨"getWorkItemComments", [jarg args ("id"), jarg args ("project")]⟩) := rfl

theorem mdEq_list_work_item_relations (args : Json) :
    mcpDispatch ("list_work_item_relations") args =
      (if !(jarg args ("id")).truthy then .error ("id is required")
       else .ok ⟨"getWorkItemRelations", [jarg args ("id"), jarg args ("project")]⟩) := rfl

theorem mdEq_list_work_item_query_results (args : Json) :
    mcpDispatch ("list_work_item_query_results") args =
      (if !(jarg args ("project")).truthy || !(jarg args ("queryId")).truthy then
        .error ("project and queryId are required")
       else .ok ⟨"getQueryResults", [jarg args ("project"), jarg args ("queryId")]⟩) := rfl

/-- Any name outside the registry hits the `default` case, for every
arguments object. -/
theorem mcpDispatch_not_mem (name : String) (args : Json) (h : name ∉ toolNames) :
    mcpDispatch name args = .error (("Unknown tool: ") ++ name) := by
  unfold mcpDispatch
  repeat rw [if_neg (by rintro rfl; exact h (by decide))]

/-- No registry name can produce the `Unknown tool` error: every registry
entry is routed by some dispatcher case. -/
theorem mcpDispatch_mem_ne_unknown (name : String) (h : name ∈ toolNames) (args : Json) :
    mcpDispatch name args ≠ .error (("Unknown tool: ") ++ name) := by
  fin_cases h <;>
    simp only [mdEq_list_projects, mdEq_query_work_items, mdEq_get_work_items_by_ids,
      mdEq_get_builds, mdEq_get_releases, mdEq_create_work_item, mdEq_update_work_item,
      mdEq_assign_work_item, mdEq_list_repositories, mdEq_list_branches,
      mdEq_list_pull_requests, mdEq_get_pull_request, mdEq_search_code,
      mdEq_search_work_items, mdEq_list_wikis, mdEq_get_wiki_page,
      mdEq_list_team_iterations, mdEq_list_test_plans, mdEq_list_project_teams,
      mdEq_get_identity_ids, mdEq_get_current_user, mdEq_list_work_item_types,
      mdEq_list_iterations, mdEq_list_build_definitions, mdEq_list_release_definitions,
      mdEq_list_queries, mdEq_get_work_item_revisions, mdEq_get_work_item_links,
      mdEq_create_pull_request, mdEq_list_commits, mdEq_get_file_content, mdEq_list_areas,
      mdEq_list_iteration_capacities, mdEq_list_work_item_categories, mdEq_list_dashboards,
      mdEq_list_pipelines, mdEq_list_test_suites, mdEq_list_variable_groups,
      mdEq_list_service_endpoints, mdEq_list_tags, mdEq_list_team_members, mdEq_list_boards,
      mdEq_list_board_columns, mdEq_list_board_rows, mdEq_list_work_item_states,
      mdEq_list_work_item_fields, mdEq_list_work_item_updates,
      mdEq_list_work_item_attachments, mdEq_list_work_item_comments,
      mdEq_list_work_item_relations, mdEq_list_work_item_query_results] <;>
    first
      | (split <;> simp)
      | simp

/-! Claim C1. -/

/-- C1 counterexample: `list_branches` declares `repositoryId` required in
its registry schema, yet the dispatcher invokes the Backend Client
(`getBranches`, with `undefined` arguments) when it is absent instead of
returning a failure naming the parameter — so required-parameter checking
does not hold for every tool in the registry. -/
theorem c1_counterexample :
    ("list_branches", ["repositoryId"]) ∈ registryRequired ∧
    mcpDispatch ("list_branches") (Json.obj []) =
      .ok ⟨"getBranches", [Json.undefined, Json.undefined]⟩ :=
  ⟨by decide, rfl⟩

/-- C1 (amended): for 23 of the 31 tools with required parameters the
dispatcher throws a fixed error naming the tool's required parameters
(before any backend call) whenever a required parameter is absent; but
for the eight tools `list_project_teams`, `list_branches`,
`get_pull_request`, `search_code`, `search_work_items`, `get_wiki_page`,
`list_team_iterations` and `list_test_plans`, the Backend Client is
invoked even when every argument (including the required ones) is
absent. -/
theorem c1_required_param_validation :
    (∀ args : Json, args.getOpt ("wiql") = Json.undefined →
      mcpDispatch ("query_work_items") args = .error ("wiql argument is required")) ∧
    (∀ args : Json, args.getOpt ("ids") = Json.undefined →
      mcpDispatch ("get_work_items_by_ids") args =
        .error ("ids argument must be an array of numbers")) ∧
    (∀ args : Json,
      (args.getOpt ("workItemType") = Json.undefined ∨ args.getOpt ("title") = Json.undefined) →
      mcpDispatch ("create_work_item") args = .error ("workItemType and title are required")) ∧
    (∀ args : Json, (args.getOpt ("id") = Json.undefined ∨ args.getOpt ("fields") = Json.undefined) →
      mcpDispatch ("update_work_item") args = .error ("id and fields are required")) ∧
    (∀ args : Json, (args.getOpt ("id") = Json.undefined ∨ args.getOpt ("assignee") = Json.undefined) →
      mcpDispatch ("assign_work_item") args = .error ("id and assignee are required")) ∧
    (∀ args : Json, args.getOpt ("searchFilter") = Json.undefined →
      mcpDispatch ("get_identity_ids") args = .error ("searchFilter argument is required")) ∧
    (∀ args : Json, args.getOpt ("id") = Json.undefined →
      mcpDispatch ("get_work_item_revisions") args = .error ("id argument is required")) ∧
    (∀ args : Json, args.getOpt ("id") = Json.undefined →
      mcpDispatch ("get_work_item_links") args = .error ("id argument is required")) ∧
    (∀ args : Json,
      (args.getOpt ("repositoryId") = Json.undefined ∨ args.getOpt ("sourceBranch") = Json.undefined
        ∨ args.getOpt ("targetBranch") = Json.undefined ∨ args.getOpt ("title") = Json.undefined) →
      mcpDispatch ("create_pull_request") args =
        .error ("repositoryId, sourceBranch, targetBranch, and title are required")) ∧
    (∀ args : Json, args.getOpt ("repositoryId") = Json.undefined →
      mcpDispatch ("list_commits") args = .error ("repositoryId argument is required")) ∧
    (∀ args : Json,
      (args.getOpt ("repositoryId") = Json.undefined ∨ args.getOpt ("path") = Json.undefined) →
      mcpDispatch ("get_file_content") args = .error ("repositoryId and path are required")) ∧
    (∀ args : Json,
      (args.getOpt ("project") = Json.undefined ∨ args.getOpt ("team") = Json.undefined
        ∨ args.getOpt ("iterationId") = Json.undefined) →
      mcpDispatch ("list_iteration_capacities") args =
        .error ("project, team, and iterationId are required")) ∧
    (∀ args : Json, (args.getOpt ("project") = Json.undefined ∨ args.getOpt ("planId") = Json.undefined) →
      mcpDispatch ("list_test_suites") args = .error ("project and planId are required")) ∧
    (∀ args : Json, (args.getOpt ("project") = Json.undefined ∨ args.getOpt ("team") = Json.undefined) →
      mcpDispatch ("list_team_members") args = .error ("project and team are required")) ∧
    (∀ args : Json, (args.getOpt ("project") = Json.undefined ∨ args.getOpt ("team") = Json.undefined) →
      mcpDispatch ("list_boards") args = .error ("project and team are required")) ∧
    (∀ args : Json,
      (args.getOpt ("project") = Json.undefined ∨ args.getOpt ("team") = Json.undefined
        ∨ args.getOpt ("board") = Json.undefined) →
      mcpDispatch ("list_board_columns") args =
        .error ("project, team, and board are required")) ∧
    (∀ args : Json,
      (args.getOpt ("project") = Json.undefined ∨ args.getOpt ("team") = Json.undefined
        ∨ args.getOpt ("board") = Json.undefined) →
      mcpDispatch ("list_board_rows") args = .error ("project, team, and board are required")) ∧
    (∀ args : Json,
      (args.getOpt ("project") = Json.undefined ∨ args.getOpt ("workItemType") = Json.undefined) →
      mcpDispatch ("list_work_item_states") args =
        .error ("project and workItemType are required")) ∧
    (∀ args : Json, args.getOpt ("id") = Json.undefined →
      mcpDispatch ("list_work_item_updates") args = .error ("id is required")) ∧
    (∀ args : Json, args.getOpt ("id") = Json.undefined →
      mcpDispatch ("list_work_item_attachments") args = .error ("id is required")) ∧
    (∀ args : Json, args.getOpt ("id") = Json.undefined →
      mcpDispatch ("list_work_item_comments") args = .error ("id is required")) ∧
    (∀ args : Json, args.getOpt ("id") = Json.undefined →
      mcpDispatch ("list_work_item_relations") args = .error ("id is required")) ∧
    (∀ args : Json,
      (args.getOpt ("project") = Json.undefined ∨ args.getOpt ("queryId") = Json.undefined) →
      mcpDispatch ("list_work_item_query_results") args =
        .error ("project and queryId are required")) ∧
    mcpDispatch ("list_project_teams") (Json.obj []) =
      .ok ⟨"getTeams", [Json.undefined, Json.undefined, Json.num 100, Json.num 0]⟩ ∧
    mcpDispatch ("list_branches") (Json.obj []) =
      .ok ⟨"getBranches", [Json.undefined, Json.undefined]⟩ ∧
    mcpDispatch ("get_pull_request") (Json.obj []) =
      .ok ⟨"getPullRequestById", [Json.undefined, Json.undefined, Json.undefined]⟩ ∧
    mcpDispatch ("search_code") (Json.obj []) =
      .ok ⟨"searchCode", [Json.undefined, Json.undefined, Json.undefined, Json.num 5]⟩ ∧
    mcpDispatch ("search_work_items") (Json.obj []) =
      .ok ⟨"searchWorkItems", [Json.undefined, Json.undefined, Json.num 10]⟩ ∧
    mcpDispatch ("get_wiki_page") (Json.obj []) =
      .ok ⟨"getWikiPageContent", [Json.undefined, Json.undefined, Json.str ("/")]⟩ ∧
    mcpDispatch ("list_team_iterations") (Json.obj []) =
      .ok ⟨"getTeamIterations", [Json.undefined, Json.undefined]⟩ ∧
    mcpDispatch ("list_test_plans") (Json.obj []) =
      .ok ⟨"getTestPlans", [Json.undefined]⟩ := by
  refine ⟨?_, ?_, ?_, ?_, ?_, ?_, ?_, ?_, ?_, ?_, ?_, ?_, ?_, ?_, ?_, ?_, ?_, ?_, ?_, ?_,
    ?_, ?_, ?_, rfl, rfl, rfl, rfl, rfl, rfl, rfl, rfl⟩ <;>
    (intro args h
     simp only [mdEq_query_work_items, mdEq_get_work_items_by_ids, mdEq_create_work_item,
       mdEq_update_work_item, mdEq_assign_work_item, mdEq_get_identity_ids,
       mdEq_get_work_item_revisions, mdEq_get_work_item_links, mdEq_create_pull_request,
       mdEq_list_commits, mdEq_get_file_content, mdEq_list_iteration_capacities,
       mdEq_list_test_suites, mdEq_list_team_members, mdEq_list_boards,
       mdEq_list_board_columns, mdEq_list_board_rows, mdEq_list_work_item_states,
       mdEq_list_work_item_updates, mdEq_list_work_item_attachments,
       mdEq_list_work_item_comments, mdEq_list_work_item_relations,
       mdEq_list_work_item_query_results]
     first
       | (rcases h with h | h | h | h <;> simp [jarg, h, Json.truthy])
       | (rcases h with h | h | h <;> simp [jarg, h, Json.truthy])
       | (rcases h with h | h <;> simp [jarg, h, Json.truthy])
       | simp [jarg, h, Json.truthy])

/-- C1 witness: omitting `wiql` from the arguments of `query_work_items`
produces the fail-fast error, via the theorem. -/
theorem c1_witness :
    mcpDispatch ("query_work_items") (Json.obj []) = .error ("wiql argument is required") :=
  c1_required_param_validation.1 (Json.obj []) rfl

/-! Claim C2. -/

/-- C2: the WIQL query operation is two-step: a first-step response whose
`workItems` list is empty (or missing) yields the empty sequence with no
batch-fetch call, and a first-step response with references `[{id:7},{id:9}]`
makes exactly one batch-fetch call with ids `[7,9]` and returns its value. -/
theorem c2_two_step_query :
    (∀ (d : Json) (batch : List Json → Except JsErr Json),
      d.getp ("workItems") = .ok (Json.arr []) →
      queryWorkItemsRun (.ok d) batch = .ok (Json.arr [], [])) ∧
    (∀ (d : Json) (batch : List Json → Except JsErr Json),
      d.getp ("workItems") = .ok Json.undefined →
      queryWorkItemsRun (.ok d) batch = .ok (Json.arr [], [])) ∧
    (∀ (batch : List Json → Except JsErr Json) (v : Json),
      batch [Json.num 7, Json.num 9] = .ok v →
      queryWorkItemsRun
        (.ok (Json.obj [("workItems",
          Json.arr [Json.obj [("id", Json.num 7)], Json.obj [("id", Json.num 9)]])]))
        batch = .ok (v, [[Json.num 7, Json.num 9]])) := by
  refine ⟨?_, ?_, ?_⟩
  · intro d batch h
    simp [queryWorkItemsRun, respData, dataField, h, Json.truthy, toJsErr, Json.lenIsZero,
      Bind.bind, Except.bind]
  · intro d batch h
    simp [queryWorkItemsRun, respData, dataField, h, Json.truthy, Bind.bind, Except.bind]
  · intro batch v hb
    have he : queryWorkItemsRun
        (.ok (Json.obj [("workItems",
          Json.arr [Json.obj [("id", Json.num 7)], Json.obj [("id", Json.num 9)]])]))
        batch =
        (batch [Json.num 7, Json.num 9]).bind
          (fun w => Except.ok (w, [[Json.num 7, Json.num 9]])) := rfl
    rw [he, hb]
    rfl

/-- C2 witness: a zero-reference response makes no batch call, and the
`[{id:7},{id:9}]` response makes exactly one batch call with ids `[7,9]`. -/
theorem c2_witness :
    queryWorkItemsRun (.ok (Json.obj [("workItems", Json.arr [])]))
      (fun _ => .ok (Json.arr [])) = .ok (Json.arr [], []) ∧
    queryWorkItemsRun
      (.ok (Json.obj [("workItems",
        Json.arr [Json.obj [("id", Json.num 7)], Json.obj [("id", Json.num 9)]])]))
      (fun _ => .ok (Json.arr [])) = .ok (Json.arr [], [[Json.num 7, Json.num 9]]) :=
  ⟨c2_two_step_query.1 _ _ rfl, c2_two_step_query.2.2 _ _ rfl⟩

/-! Claim C3. -/

/-- C3: a backend 404 on the optional-feature list methods (test plans,
boards, tags, variable groups) yields the empty sequence rather than an
error, while a non-404 error is rethrown and a 404 on the mandatory
work-items-by-id lookup propagates as an error. -/
theorem c3_optional_404_policy :
    getTestPlans (.err 404) = .ok (.arr []) ∧
    getBoards (.err 404) = .ok (.arr []) ∧
    getTags (.err 404) = .ok (.arr []) ∧
    getVariableGroups (.err 404) = .ok (.arr []) ∧
    getTestPlans (.err 500) = .error (.http 500) ∧
    getWorkItems [Json.num 5] (.err 404) = .error (.http 404) :=
  ⟨rfl, rfl, rfl, rfl, rfl, rfl⟩

/-! Claim C4. -/

/-- C4: for every list-shaped tool of the MCP handler, formatting the
empty sequence yields exactly that tool's fixed one-line empty message
(for any arguments object), and end-to-end, `list_projects` against a
backend returning `[]` yields exactly `No projects found.`. -/
theorem c4_empty_list_formatting :
    (∀ args : Json, mcpFormat ("list_projects") (Json.arr []) args = .ok ("No projects found.")) ∧
    (∀ args : Json, mcpFormat ("query_work_items") (Json.arr []) args =
      .ok ("No work items match the query.")) ∧
    (∀ args : Json, mcpFormat ("get_work_items_by_ids") (Json.arr []) args =
      .ok ("No work items found with those IDs.")) ∧
    (∀ args : Json, mcpFormat ("get_builds") (Json.arr []) args = .ok ("No builds found.")) ∧
    (∀ args : Json, mcpFormat ("get_releases") (Json.arr []) args = .ok ("No releases found.")) ∧
    (∀ args : Json, mcpFormat ("list_repositories") (Json.arr []) args =
      .ok ("No repositories found.")) ∧
    (∀ args : Json, mcpFormat ("list_branches") (Json.arr []) args = .ok ("No branches found.")) ∧
    (∀ args : Json, mcpFormat ("list_pull_requests") (Json.arr []) args =
      .ok ("No pull requests found.")) ∧
    (∀ args : Json, mcpFormat ("search_code") (Json.arr []) args =
      .ok ("No code search results found.")) ∧
    (∀ args : Json, mcpFormat ("search_work_items") (Json.arr []) args =
      .ok ("No work item search results found.")) ∧
    (∀ args : Json, mcpFormat ("list_wikis") (Json.arr []) args = .ok ("No wikis found.")) ∧
    (∀ args : Json, mcpFormat ("list_team_iterations") (Json.arr []) args =
      .ok ("No iterations found for this team.")) ∧
    (∀ args : Json, mcpFormat ("list_test_plans") (Json.arr []) args =
      .ok ("No test plans found.")) ∧
    (∀ args : Json, mcpFormat ("list_project_teams") (Json.arr []) args =
      .ok ("No teams found.")) ∧
    (∀ args : Json, mcpFormat ("get_identity_ids") (Json.arr []) args =
      .ok ("No identities found.")) ∧
    (∀ args : Json, mcpFormat ("list_work_item_types") (Json.arr []) args =
      .ok ("No work item types found.")) ∧
    (∀ args : Json, mcpFormat ("list_iterations") (Json.arr []) args =
      .ok ("No iterations found.")) ∧
    (∀ args : Json, mcpFormat ("list_build_definitions") (Json.arr []) args =
      .ok ("No build definitions found.")) ∧
    (∀ args : Json, mcpFormat ("list_release_definitions") (Json.arr []) args =
      .ok ("No release definitions found.")) ∧
    (∀ args : Json, mcpFormat ("list_queries") (Json.arr []) args = .ok ("No queries found.")) ∧
    (∀ args : Json, mcpFormat ("get_work_item_revisions") (Json.arr []) args =
      .ok ("No revisions found for this work item.")) ∧
    (∀ args : Json, mcpFormat ("get_work_item_links") (Json.arr []) args =
      .ok ("No links found for this work item.")) ∧
    (∀ args : Json, mcpFormat ("list_commits") (Json.arr []) args = .ok ("No commits found.")) ∧
    (∀ args : Json, mcpFormat ("list_areas") (Json.arr []) args = .ok ("No areas found.")) ∧
    (∀ args : Json, mcpFormat ("list_iteration_capacities") (Json.arr []) args =
      .ok ("No capacities found for this iteration.")) ∧
    (∀ args : Json, mcpFormat ("list_work_item_categories") (Json.arr []) args =
      .ok ("No work item categories found.")) ∧
    (∀ args : Json, mcpFormat ("list_dashboards") (Json.arr []) args =
      .ok ("No dashboards found.")) ∧
    (∀ args : Json, mcpFormat ("list_pipelines") (Json.arr []) args =
      .ok ("No pipelines found.")) ∧
    (∀ args : Json, mcpFormat ("list_test_suites") (Json.arr []) args =
      .ok ("No test suites found.")) ∧
    (∀ args : Json, mcpFormat ("list_variable_groups") (Json.arr []) args =
      .ok ("No variable groups found.")) ∧
    (∀ args : Json, mcpFormat ("list_service_endpoints") (Json.arr []) args =
      .ok ("No service endpoints found.")) ∧
    (∀ args : Json, mcpFormat ("list_tags") (Json.arr []) args = .ok ("No tags found.")) ∧
    (∀ args : Json, mcpFormat ("list_team_members") (Json.arr []) args =
      .ok ("No team members found.")) ∧
    (∀ args : Json, mcpFormat ("list_boards") (Json.arr []) args = .ok ("No boards found.")) ∧
    (∀ args : Json, mcpFormat ("list_board_columns") (Json.arr []) args =
      .ok ("No board columns found.")) ∧
    (∀ args : Json, mcpFormat ("list_board_rows") (Json.arr []) args =
      .ok ("No board rows found.")) ∧
    (∀ args : Json, mcpFormat ("list_work_item_states") (Json.arr []) args =
      .ok ("No work item states found.")) ∧
    (∀ args : Json, mcpFormat ("list_work_item_fields") (Json.arr []) args =
      .ok ("No work item fields found.")) ∧
    (∀ args : Json, mcpFormat ("list_work_item_updates") (Json.arr []) args =
      .ok ("No updates found for this work item.")) ∧
    (∀ args : Json, mcpFormat ("list_work_item_attachments") (Json.arr []) args =
      .ok ("No attachments found for this work item.")) ∧
    (∀ args : Json, mcpFormat ("list_work_item_comments") (Json.arr []) args =
      .ok ("No comments found for this work item.")) ∧
    (∀ args : Json, mcpFormat ("list_work_item_relations") (Json.arr []) args =
      .ok ("No relations found for this work item.")) ∧
    (∀ args : Json, mcpFormat ("list_work_item_query_results") (Json.arr []) args =
      .ok ("No work items found for this query.")) ∧
    mcpHandler ("list_projects") (Json.obj []) (fun _ => .ok (Json.arr [])) =
      ⟨"No projects found.", false⟩ := by
  refine ⟨?_, ?_, ?_, ?_, ?_, ?_, ?_, ?_, ?_, ?_, ?_, ?_, ?_, ?_, ?_, ?_, ?_, ?_, ?_, ?_,
    ?_, ?_, ?_, ?_, ?_, ?_, ?_, ?_, ?_, ?_, ?_, ?_, ?_, ?_, ?_, ?_, ?_, ?_, ?_, ?_,
    ?_, ?_, ?_, rfl⟩ <;> exact fun _ => rfl

/-! Claim C5. -/

/-- C5 counterexample: the MCP `list_branches` formatter throws a
TypeError on a branch record without `objectId`
(`b.objectId.substring(0, 8)` has no guard), so formatting does not
tolerate every missing nested field. -/
theorem c5_counterexample :
    mcpFormat ("list_branches") (Json.arr [Json.obj [("name", Json.str ("main"))]])
      (Json.obj []) = .error ("TypeError") := rfl

/-- C5 (amended): cell accessors written with optional chaining and
`|| ''` substitute the empty string for missing nested fields (e.g. the
HTTP branch row, the MCP work-item-search row and revision row), but the
accessors without guards fail on records lacking the field: the MCP
branch row (`objectId`), the work-item rows (`fields`), the MCP
pull-request row (`createdBy`) and the MCP team-iteration row
(`attributes`) all throw a TypeError. -/
theorem c5_cell_accessor_tolerance :
    httpFormat ("list_branches") (Json.arr [Json.obj [("name", Json.str ("main"))]])
      (Json.obj []) =
      .ok ("## Branches (1)\n| Name | Commit | Creator |\n|------|--------|---------|\n| main |  |  |") ∧
    mcpFormat ("search_work_items") (Json.arr [Json.obj []]) (Json.obj []) =
      .ok ("## Work Item Search Results (1)\n| ID | Title | State | Type |\n|----|-------|-------|------|\n|  |  |  |  |") ∧
    mcpFormat ("get_work_item_revisions") (Json.arr [Json.obj [("rev", Json.num 2)]])
      (Json.obj []) =
      .ok ("## Work Item Revisions (1)\n| Rev | Changed Date | Changed By | State |\n|-----|--------------|------------|-------|\n| 2 |  |  |  |") ∧
    mcpFormat ("query_work_items") (Json.arr [Json.obj [("id", Json.num 1)]]) (Json.obj []) =
      .error ("TypeError") ∧
    mcpFormat ("list_pull_requests")
      (Json.arr [Json.obj [("pullRequestId", Json.num 3), ("title", Json.str ("t")),
        ("status", Json.str ("active"))]]) (Json.obj []) = .error ("TypeError") ∧
    mcpFormat ("list_team_iterations")
      (Json.arr [Json.obj [("id", Json.str ("i1")), ("name", Json.str ("n")),
        ("path", Json.str ("p"))]]) (Json.obj []) = .error ("TypeError") :=
  ⟨rfl, rfl, rfl, rfl, rfl, rfl⟩

/-! Claim C6. -/

/-- C6: the registry has no duplicate tool name; every name outside the
registry falls to the dispatcher's `Unknown tool` default; and no
registry name can produce the `Unknown tool` error (every registry entry
has a live dispatcher case) — the registry and dispatcher route exactly
the same set of names. -/
theorem c6_registry_dispatcher_symmetry :
    toolNames.Nodup ∧
    (∀ (name : String) (args : Json), name ∉ toolNames →
      mcpDispatch name args = .error (("Unknown tool: ") ++ name)) ∧
    (∀ name : String, name ∈ toolNames → ∀ args : Json,
      mcpDispatch name args ≠ .error (("Unknown tool: ") ++ name)) :=
  ⟨by decide, fun name args h => mcpDispatch_not_mem name args h,
   fun name h args => mcpDispatch_mem_ne_unknown name h args⟩

/-- C6 witness: the unknown name `bogus` hits the default case, while
the registry name `list_projects` never does. -/
theorem c6_witness :
    mcpDispatch ("bogus") (Json.obj []) = .error (("Unknown tool: ") ++ "bogus") ∧
    mcpDispatch ("list_projects") (Json.obj []) ≠
      .error (("Unknown tool: ") ++ "list_projects") :=
  ⟨c6_registry_dispatcher_symmetry.2.1 ("bogus") (Json.obj []) (by decide),
   c6_registry_dispatcher_symmetry.2.2 ("list_projects") (by decide) (Json.obj [])⟩

/-! Claim C7. -/

/-- C7: every error raised during dispatch or by the Backend Client is
caught at the invocation boundary and rendered as a textual result: the
MCP handler renders an unknown tool name as `Error: Unknown tool: <name>`
and any thrown message `m` as `Error: <m>` (with `isError` set), never
propagating the exception; the HTTP per-tool endpoint returns 404
`Tool not found` for names outside the registry and a 500 with the
thrown message for any error in its try block. -/
theorem c7_error_containment :
    (∀ (name : String) (args : Json) (oracle : BackendOracle), name ∉ toolNames →
      mcpHandler name args oracle = ⟨("Error: ") ++ (("Unknown tool: ") ++ name), true⟩) ∧
    (∀ (name : String) (args : Json) (oracle : BackendOracle) (m : String),
      mcpTry name args oracle = .error m →
      mcpHandler name args oracle = ⟨("Error: ") ++ m, true⟩) ∧
    (∀ (name : String) (args : Json) (oracle : BackendOracle), name ∉ toolNames →
      httpHandler name args oracle = ⟨404, "Tool not found"⟩) ∧
    (∀ (name : String) (args : Json) (oracle : BackendOracle) (m : String),
      name ∈ toolNames → httpExec name args oracle = .error m →
      httpHandler name args oracle = ⟨500, m⟩) := by
  refine ⟨?_, ?_, ?_, ?_⟩
  · intro name args oracle h
    have hm : mcpTry name args oracle = .error (("Unknown tool: ") ++ name) := by
      simp [mcpTry, mcpDispatch_not_mem name args h, Bind.bind, Except.bind]
    simp [mcpHandler, hm]
  · intro name args oracle m h
    simp [mcpHandler, h]
  · intro name args oracle h
    simp [httpHandler, h]
  · intro name args oracle m h1 h2
    simp [httpHandler, h1, h2]

/-- C7 witness: both handlers contain the unknown-tool failure, and the
MCP handler renders a validation throw textually. -/
theorem c7_witness :
    mcpHandler ("bogus") (Json.obj []) (fun _ => .ok Json.null) =
      ⟨("Error: ") ++ (("Unknown tool: ") ++ "bogus"), true⟩ ∧
    httpHandler ("bogus") (Json.obj []) (fun _ => .ok Json.null) = ⟨404, "Tool not found"⟩ ∧
    mcpHandler ("query_work_items") (Json.obj []) (fun _ => .ok Json.null) =
      ⟨("Error: ") ++ "wiql argument is required", true⟩ :=
  ⟨c7_error_containment.1 ("bogus") (Json.obj []) (fun _ => .ok Json.null) (by decide),
   c7_error_containment.2.2.1 ("bogus") (Json.obj []) (fun _ => .ok Json.null) (by decide),
   c7_error_containment.2.1 ("query_work_items") (Json.obj []) (fun _ => .ok Json.null)
     ("wiql argument is required") rfl⟩

/-! Claim C8. -/

/-- C8 counterexample: `update_work_item` with a supplied-but-empty
`comment` argument renders no labelled comment line, so the block does
not contain a comment line "if and only if a comment argument was
supplied" — the line is keyed on truthiness, not on presence. -/
theorem c8_counterexample :
    (Json.obj [("id", Json.num 5), ("fields", Json.obj [("System.Title", Json.str ("New"))]),
      ("comment", Json.str (""))]).getOpt ("comment") = Json.str ("") ∧
    mcpFormat ("update_work_item") (Json.obj [("id", Json.num 5)])
      (Json.obj [("id", Json.num 5), ("fields", Json.obj [("System.Title", Json.str ("New"))]),
        ("comment", Json.str (""))]) =
      .ok ("✅ Work item 5 updated successfully!\n**Updated fields**:\n- **System.Title**: New\n") ∧
    strContains
      ("✅ Work item 5 updated successfully!\n**Updated fields**:\n- **System.Title**: New\n")
      ("**Comment**") = false :=
  ⟨rfl, rfl, by decide⟩

/-- C8 (amended): mutation confirmations carry a success marker and the
essential identifiers; the labelled comment line appears iff a truthy
(non-empty) comment argument was supplied, and lines for absent
arguments are omitted.  In particular `create_work_item` with
`{workItemType:"Bug", title:"Login issue"}` against a backend echoing
`{id:42}` yields a block with `**ID**: 42`, `**Type**: Bug`,
`**Title**: Login issue` and no comment/description line. -/
theorem c8_mutation_confirmation :
    mcpFormat ("create_work_item")
      (Json.obj [("id", Json.num 42), ("url", Json.str ("https://example.com/42"))])
      (Json.obj [("workItemType", Json.str ("Bug")), ("title", Json.str ("Login issue"))]) =
      .ok ("✅ Work item created successfully!\n**ID**: 42\n**Type**: Bug\n**Title**: Login issue\n**URL**: https://example.com/42\n\n") ∧
    strContains
      ("✅ Work item created successfully!\n**ID**: 42\n**Type**: Bug\n**Title**: Login issue\n**URL**: https://example.com/42\n\n")
      ("**ID**: 42") = true ∧
    strContains
      ("✅ Work item created successfully!\n**ID**: 42\n**Type**: Bug\n**Title**: Login issue\n**URL**: https://example.com/42\n\n")
      ("**Type**: Bug") = true ∧
    strContains
      ("✅ Work item created successfully!\n**ID**: 42\n**Type**: Bug\n**Title**: Login issue\n**URL**: https://example.com/42\n\n")
      ("**Title**: Login issue") = true ∧
    strContains
      ("✅ Work item created successfully!\n**ID**: 42\n**Type**: Bug\n**Title**: Login issue\n**URL**: https://example.com/42\n\n")
      ("Comment") = false ∧
    strContains
      ("✅ Work item created successfully!\n**ID**: 42\n**Type**: Bug\n**Title**: Login issue\n**URL**: https://example.com/42\n\n")
      ("**Description**") = false ∧
    mcpFormat ("update_work_item") (Json.obj [("id", Json.num 5)])
      (Json.obj [("id", Json.num 5), ("fields", Json.obj [("System.Title", Json.str ("New"))]),
        ("comment", Json.str ("fixed"))]) =
      .ok ("✅ Work item 5 updated successfully!\n**Updated fields**:\n- **System.Title**: New\n**Comment**: fixed") ∧
    strContains
      ("✅ Work item 5 updated successfully!\n**Updated fields**:\n- **System.Title**: New\n**Comment**: fixed")
      ("**Comment**: fixed") = true ∧
    mcpFormat ("update_work_item") (Json.obj [("id", Json.num 5)])
      (Json.obj [("id", Json.num 5),
        ("fields", Json.obj [("System.Title", Json.str ("New"))])]) =
      .ok ("✅ Work item 5 updated successfully!\n**Updated fields**:\n- **System.Title**: New\n") ∧
    mcpFormat ("assign_work_item") (Json.obj [("id", Json.num 7)])
      (Json.obj [("id", Json.num 7), ("assignee", Json.str ("Jane"))]) =
      .ok ("✅ Work item 7 assigned to Jane successfully!\n") :=
  ⟨rfl, by decide, by decide, by decide, by decide, by decide, rfl, by decide, rfl, rfl⟩

/-! Claim C9. -/

/-- Outside the templated branch names, the HTTP formatter is the JSON
fallback. -/
theorem httpFormat_not_mem (name : String) (payload args : Json)
    (h : name ∉ httpChatBranchNames) :
    httpFormat name payload args = .ok (jsonStringify payload ("")) := by
  unfold httpFormat
  repeat rw [if_neg (by rintro (rfl | rfl) <;> exact h (by decide))]

/-- Outside the templated branch names, the chat formatter is the JSON
fallback. -/
theorem chatFormat_not_mem (name : String) (payload args : Json)
    (h : name ∉ httpChatBranchNames) :
    chatFormat name payload args = .ok (jsonStringify payload ("")) := by
  unfold chatFormat
  repeat rw [if_neg (by rintro (rfl | rfl) <;> exact h (by decide))]

/-- The HTTP and chat `update_work_item` confirmation blocks agree
whenever the `fields` argument is not a non-empty string (the only shape
on which `Object.entries(fields)` and the chat endpoint's
`typeof`-guarded variant differ). -/
theorem updateBlock_agree (payload args : Json)
    (hfs : ∀ s : String, args.getp ("fields") = .ok (Json.str s) → s = "") :
    updateBlockHttp payload args = updateBlockChat payload args := by
  unfold updateBlockHttp updateBlockChat
  cases h : args.getp ("fields") with
  | error e => simp [h, Bind.bind, Except.bind]
  | ok f0 =>
    cases f0 with
    | undefined => simp [h, Bind.bind, Except.bind, jor, Json.truthy, jsIsObjectNotNull, jsEntries]
    | null => simp [h, Bind.bind, Except.bind, jor, Json.truthy, jsIsObjectNotNull, jsEntries]
    | bool b =>
      cases b <;>
        simp [h, Bind.bind, Except.bind, jor, Json.truthy, jsIsObjectNotNull, jsEntries]
    | num n =>
      by_cases hn : n = 0 <;>
        simp [h, hn, Bind.bind, Except.bind, jor, Json.truthy, jsIsObjectNotNull, jsEntries]
    | str s =>
      have hs := hfs s h
      subst hs
      simp [h, Bind.bind, Except.bind, jor, Json.truthy, jsIsObjectNotNull, jsEntries]
    | arr xs => simp [h, Bind.bind, Except.bind, jor, Json.truthy, jsIsObjectNotNull, jsEntries]
    | obj fs => simp [h, Bind.bind, Except.bind, jor, Json.truthy, jsIsObjectNotNull, jsEntries]

/-- C9 counterexample: the three call sites do not produce identical text
for the same `(toolName, payload, arguments)`: on `query_work_items`
with the empty payload, the MCP handler renders
`No work items match the query.` while the HTTP and chat handlers render
`No work items found.`. -/
theorem c9_counterexample :
    mcpFormat ("query_work_items") (Json.arr []) (Json.obj []) =
      .ok ("No work items match the query.") ∧
    httpFormat ("query_work_items") (Json.arr []) (Json.obj []) =
      .ok ("No work items found.") ∧
    chatFormat ("query_work_items") (Json.arr []) (Json.obj []) =
      .ok ("No work items found.") ∧
    ("No work items match the query.") ≠ ("No work items found.") :=
  ⟨rfl, rfl, rfl, by decide⟩

/-- C9 (amended): the HTTP per-tool endpoint and the chat endpoint
produce identical formatted text for every `(toolName, payload,
arguments)` whose `fields` argument is not a non-empty string; the MCP
handler's formatter differs from them on several tools. -/
theorem c9_http_chat_formatter_agreement (name : String) (payload args : Json)
    (hfs : ∀ s : String, args.getp ("fields") = .ok (Json.str s) → s = "") :
    httpFormat name payload args = chatFormat name payload args := by
  by_cases hm : name ∈ httpChatBranchNames
  · fin_cases hm <;> first | rfl | exact updateBlock_agree payload args hfs
  · rw [httpFormat_not_mem name payload args hm, chatFormat_not_mem name payload args hm]

/-- C9 witness: agreement at a concrete input (a templated tool, the
`update_work_item` tool, and a fallback tool). -/
theorem c9_witness :
    httpFormat ("list_projects") (Json.arr []) (Json.obj []) =
      chatFormat ("list_projects") (Json.arr []) (Json.obj []) ∧
    httpFormat ("update_work_item") (Json.obj [("id", Json.num 5)])
      (Json.obj [("fields", Json.obj [("System.Title", Json.str ("New"))])]) =
      chatFormat ("update_work_item") (Json.obj [("id", Json.num 5)])
        (Json.obj [("fields", Json.obj [("System.Title", Json.str ("New"))])]) ∧
    httpFormat ("list_tags") (Json.arr []) (Json.obj []) =
      chatFormat ("list_tags") (Json.arr []) (Json.obj []) :=
  ⟨c9_http_chat_formatter_agreement ("list_projects") (Json.arr []) (Json.obj [])
      (fun s hs => by exact absurd hs (by simp [Json.getp])),
   c9_http_chat_formatter_agreement ("update_work_item") (Json.obj [("id", Json.num 5)])
      (Json.obj [("fields", Json.obj [("System.Title", Json.str ("New"))])])
      (fun s hs => by simp [Json.getp] at hs),
   c9_http_chat_formatter_agreement ("list_tags") (Json.arr []) (Json.obj [])
      (fun s hs => by exact absurd hs (by simp [Json.getp]))⟩

/-! Claim C10. -/

/-- C10 counterexample: not every invocation path defaults `top = 0` to
10 — the HTTP per-tool endpoint passes `top` through unchanged
(`azureClient.getBuilds(args.definitionId, args.top)`), and the client's
TypeScript default fires only on an absent argument, so the backend URL
carries `$top=0`. -/
theorem c10_counterexample :
    httpDispatch ("get_builds") (Json.obj [("top", Json.num 0)]) =
      .ok (some ⟨"getBuilds", [Json.undefined, Json.num 0]⟩) ∧
    getBuildsUrl ⟨"org", "proj"⟩ none (some 0) =
      "/proj/_apis/build/builds?api-version=7.1&$top=0" :=
  ⟨rfl, rfl⟩

/-- C10 (amended): optional-parameter defaulting is by truthiness at the
MCP dispatcher — `get_builds`/`get_releases` invoked there with
`top = 0` call the Backend Client with `top = 10` — and every Backend
Client method with an optional `project` parameter treats a supplied
empty-string project exactly like an absent one (falling back to the
configured default project); the HTTP/chat call sites, by contrast, pass
`top` through unchanged (see the counterexample). -/
theorem c10_truthiness_defaulting :
    (∀ args : Json, args.getOpt ("top") = Json.num 0 →
      mcpDispatch ("get_builds") args =
        .ok ⟨"getBuilds", [args.getOpt ("definitionId"), Json.num 10]⟩) ∧
    (∀ args : Json, args.getOpt ("top") = Json.num 0 →
      mcpDispatch ("get_releases") args = .ok ⟨"getReleases", [Json.num 10]⟩) ∧
    (∀ ctx : ClientCtx, getRepositoriesUrl ctx (some "") = getRepositoriesUrl ctx none) ∧
    (∀ (ctx : ClientCtx) (r : String), getBranchesUrl ctx r (some "") = getBranchesUrl ctx r none) ∧
    (∀ (ctx : ClientCtx) (r : Option String) (t : Option Int) (s : Option String),
      getPullRequestsUrl ctx r (some "") t s = getPullRequestsUrl ctx r none t s) ∧
    (∀ (ctx : ClientCtx) (r : String) (i : Int),
      getPullRequestByIdUrl ctx r i (some "") = getPullRequestByIdUrl ctx r i none) ∧
    (∀ (ctx : ClientCtx) (st : String) (r : Option String) (t : Option Int),
      searchCodeBody ctx st (some "") r t = searchCodeBody ctx st none r t) ∧
    (∀ (ctx : ClientCtx) (st : String) (t : Option Int),
      searchWorkItemsBody ctx st (some "") t = searchWorkItemsBody ctx st none t) ∧
    (∀ ctx : ClientCtx, getWikisUrl ctx (some "") = getWikisUrl ctx none) ∧
    (∀ (ctx : ClientCtx) (w : String) (p : Option String),
      getWikiPageContentUrl ctx w (some "") p = getWikiPageContentUrl ctx w none p) ∧
    (∀ ctx : ClientCtx, getWorkItemTypesUrl ctx (some "") = getWorkItemTypesUrl ctx none) ∧
    (∀ ctx : ClientCtx, getIterationsUrl ctx (some "") = getIterationsUrl ctx none) ∧
    (∀ ctx : ClientCtx,
      getBuildDefinitionsUrl ctx (some "") = getBuildDefinitionsUrl ctx none) ∧
    (∀ ctx : ClientCtx,
      getReleaseDefinitionsUrl ctx (some "") = getReleaseDefinitionsUrl ctx none) ∧
    (∀ ctx : ClientCtx, getQueriesUrl ctx (some "") = getQueriesUrl ctx none) ∧
    (∀ (ctx : ClientCtx) (i : Int),
      getWorkItemRevisionsUrl ctx i (some "") = getWorkItemRevisionsUrl ctx i none) ∧
    (∀ (ctx : ClientCtx) (i : Int),
      getWorkItemLinksUrl ctx i (some "") = getWorkItemLinksUrl ctx i none) ∧
    (∀ (ctx : ClientCtx) (r : String),
      createPullRequestUrl ctx r (some "") = createPullRequestUrl ctx r none) ∧
    (∀ (ctx : ClientCtx) (r : String) (t : Option Int),
      getCommitsUrl ctx r (some "") t = getCommitsUrl ctx r none t) ∧
    (∀ (ctx : ClientCtx) (r p : String),
      getFileContentUrl ctx r p (some "") = getFileContentUrl ctx r p none) ∧
    (∀ ctx : ClientCtx, getAreasUrl ctx (some "") = getAreasUrl ctx none) ∧
    (∀ ctx : ClientCtx,
      getWorkItemCategoriesUrl ctx (some "") = getWorkItemCategoriesUrl ctx none) ∧
    (∀ ctx : ClientCtx, getDashboardsUrl ctx (some "") = getDashboardsUrl ctx none) ∧
    (∀ ctx : ClientCtx, getPipelinesUrl ctx (some "") = getPipelinesUrl ctx none) ∧
    (∀ ctx : ClientCtx, getVariableGroupsUrl ctx (some "") = getVariableGroupsUrl ctx none) ∧
    (∀ ctx : ClientCtx,
      getServiceEndpointsUrl ctx (some "") = getServiceEndpointsUrl ctx none) ∧
    (∀ ctx : ClientCtx, getTagsUrl ctx (some "") = getTagsUrl ctx none) ∧
    (∀ ctx : ClientCtx, getWorkItemFieldsUrl ctx (some "") = getWorkItemFieldsUrl ctx none) ∧
    (∀ (ctx : ClientCtx) (i : Int),
      getWorkItemUpdatesUrl ctx i (some "") = getWorkItemUpdatesUrl ctx i none) ∧
    (∀ (ctx : ClientCtx) (i : Int),
      getWorkItemAttachmentsUrl ctx i (some "") = getWorkItemAttachmentsUrl ctx i none) ∧
    (∀ (ctx : ClientCtx) (i : Int),
      getWorkItemCommentsUrl ctx i (some "") = getWorkItemCommentsUrl ctx i none) ∧
    (∀ (ctx : ClientCtx) (i : Int),
      getWorkItemRelationsUrl ctx i (some "") = getWorkItemRelationsUrl ctx i none) := by
  refine ⟨?_, ?_, fun _ => rfl, fun _ _ => rfl, fun _ _ _ _ => rfl, fun _ _ _ => rfl,
    fun _ _ _ _ => rfl, fun _ _ _ => rfl, fun _ => rfl, fun _ _ _ => rfl, fun _ => rfl,
    fun _ => rfl, fun _ => rfl, fun _ => rfl, fun _ => rfl, fun _ _ => rfl, fun _ _ => rfl,
    fun _ _ => rfl, fun _ _ _ => rfl, fun _ _ _ => rfl, fun _ => rfl, fun _ => rfl,
    fun _ => rfl, fun _ => rfl, fun _ => rfl, fun _ => rfl, fun _ => rfl, fun _ => rfl,
    fun _ _ => rfl, fun _ _ => rfl, fun _ _ => rfl, fun _ _ => rfl⟩
  · intro args h
    rw [mdEq_get_builds]
    simp [jarg, h, jor, Json.truthy]
  · intro args h
    rw [mdEq_get_releases]
    simp [jarg, h, jor, Json.truthy]

/-- C10 witness: `get_builds` and `get_releases` dispatched through the
MCP handler with `top = 0` call the backend with `top = 10`. -/
theorem c10_witness :
    mcpDispatch ("get_builds") (Json.obj [("top", Json.num 0)]) =
      .ok ⟨"getBuilds", [Json.undefined, Json.num 10]⟩ ∧
    mcpDispatch ("get_releases") (Json.obj [("top", Json.num 0)]) =
      .ok ⟨"getReleases", [Json.num 10]⟩ :=
  ⟨c10_truthiness_defaulting.1 (Json.obj [("top", Json.num 0)]) rfl,
   c10_truthiness_defaulting.2.1 (Json.obj [("top", Json.num 0)]) rfl⟩

end AzdoMcp
